import Mathlib

/-!
# ORION Consciousness-Prior — verification of the indicator engine

Shallow embedding of the `orion_indicators` Python package:

* the profile data model (`Profile` with its four optional sections);
* the 14 indicator evaluators (`rpt_indicators.py`, `gwt_indicators.py`,
  `hot_indicators.py`, `pp_indicators.py`, `ast_indicators.py`);
* the Bayesian credence aggregator (`bayesian_credence.py`);
* the engine (`indicator_engine.py`) with its hash-chained proof record,
  including a from-scratch SHA-256 over `Nat` bytes;
* the assessment runner's reference catalog (`assessment_runner.py`).

Modelling conventions:

* Python floats are modelled as exact numbers — `ℚ` for the indicator layer
  (which only adds, multiplies, divides and clamps rationals) and `ℝ` for the
  credence aggregator (which uses `log`/`exp`).  Floating-point rounding is
  not modelled.
* Python's float-to-decimal rendering (used by `json.dumps` when serializing
  the proof record) is a formatting concern of the runtime; it is taken as a
  parameter `render : ℝ → String` of the engine.  No theorem below depends on
  a particular rendering.
* Missing profile fields are `Option` fields resolved with `.getD`, mirroring
  each `dict.get(key, default)` call at evaluator entry.
  `broadcast_latency_ms` defaults to `float("inf")` in the source, hence it is
  resolved into `WithTop ℚ` with `⊤` for the missing case.
* The Python attribute `partial` is a Lean keyword; it is embedded as
  `partFlag` (and the engine's `partial` count as `part_count`).
* `IndicatorResult.evidence` and `.details` are human-readable presentation
  strings/dicts that no scoring or hashing code reads; they are elided.
-/

/-- Embeds the `architecture` section of a profile (`profile.get("architecture", {})`).
Every field is optional; evaluators resolve defaults via `.get`. -/
structure Arch where
  has_recurrent_connections : Option Bool := none
  recurrence_depth : Option ℚ := none
  feedback_loop_count : Option ℚ := none
  feedback_connection_richness : Option ℚ := none
  bidirectional_connections : Option Bool := none
  cross_layer_feedback : Option ℚ := none
  specialized_module_count : Option ℚ := none
  module_specialization_score : Option ℚ := none
  has_central_workspace : Option Bool := none
  global_broadcast_capability : Option ℚ := none
  broadcast_latency_ms : Option ℚ := none
  routing_flexibility : Option ℚ := none
  has_dynamic_routing : Option Bool := none
  has_attention_mechanism : Option Bool := none
  has_meta_representations : Option Bool := none
  meta_representation_depth : Option ℚ := none
  embedding_smoothness : Option ℚ := none
  has_continuous_representations : Option Bool := none
  interpolation_quality : Option ℚ := none
  hierarchical_depth : Option ℚ := none
  has_top_down_predictions : Option Bool := none
  has_generative_model : Option Bool := none
  prediction_error_minimization : Option Bool := none
  has_attention_schema : Option Bool := none
  deriving DecidableEq

/-- Embeds the `behaviors` section of a profile. -/
structure Behaviors where
  workspace_ignition_detected : Option Bool := none
  uncertainty_monitoring : Option ℚ := none
  confidence_calibration : Option ℚ := none
  error_detection_rate : Option ℚ := none
  agency_score : Option ℚ := none
  systematic_preferences : Option Bool := none
  goal_directed_behavior : Option Bool := none
  attention_guided_behavior : Option ℚ := none
  deriving DecidableEq

/-- Embeds the `internal_states` section of a profile. -/
structure InternalStates where
  has_self_model : Option Bool := none
  can_report_attention_state : Option Bool := none
  attention_model_accuracy : Option ℚ := none
  dynamic_attention_allocation : Option Bool := none
  priority_based_weighting : Option ℚ := none
  mean_prediction_error : Option ℚ := none
  prediction_error_convergence : Option ℚ := none
  deriving DecidableEq

/-- Embeds the `metadata` section of a profile. -/
structure Metadata where
  name : Option String := none
  type : Option String := none
  deriving DecidableEq

/-- A system profile: four optional sections (a missing section behaves as
the empty dict, exactly like `profile.get("architecture", {})`). -/
structure Profile where
  metadata : Metadata := {}
  architecture : Arch := {}
  behaviors : Behaviors := {}
  internal_states : InternalStates := {}
  deriving DecidableEq

/-- Result of a single indicator test (`IndicatorResult` dataclass in
`indicator_engine.py`); the Python field `partial` is `partFlag` here. -/
structure IndicatorResult where
  indicator_id : String
  theory : String
  name : String
  description : String
  score : ℚ
  satisfied : Bool
  partFlag : Bool
  deriving DecidableEq

/-! ## RPT evaluators (`rpt_indicators.py`) -/

/-- Embeds `RPTIndicators._rpt1`. -/
def rpt1 (arch : Arch) : IndicatorResult :=
  let has_recurrence := arch.has_recurrent_connections.getD false
  let recurrence_depth := arch.recurrence_depth.getD 0
  let feedback_loops := arch.feedback_loop_count.getD 0
  let score : ℚ :=
    (if has_recurrence then 0.4 else 0)
      + min (recurrence_depth / 10) 0.3 + min (feedback_loops / 5) 0.3
  let score := min score 1
  { indicator_id := "RPT-1", theory := "RPT", name := "Algorithmic Recurrence",
    description := "System implements recurrent processing with feedback loops",
    score := score, satisfied := decide (score ≥ 0.7), partFlag := decide (score ≥ 0.3) }

/-- Embeds `RPTIndicators._rpt2`. -/
def rpt2 (arch : Arch) : IndicatorResult :=
  let feedback_richness := arch.feedback_connection_richness.getD 0
  let bidirectional := arch.bidirectional_connections.getD false
  let layer_feedback := arch.cross_layer_feedback.getD 0
  let score : ℚ :=
    feedback_richness * 0.4 + (if bidirectional then 0.3 else 0)
      + min (layer_feedback / 8) 0.3
  let score := min score 1
  { indicator_id := "RPT-2", theory := "RPT", name := "Rich Feedback Connections",
    description := "Rich feedback connections between processing hierarchy levels",
    score := score, satisfied := decide (score ≥ 0.7), partFlag := decide (score ≥ 0.3) }

/-- Embeds `RPTIndicators.evaluate`. -/
def rptEvaluate (p : Profile) : List IndicatorResult :=
  [rpt1 p.architecture, rpt2 p.architecture]

/-! ## GWT evaluators (`gwt_indicators.py`) -/

/-- Embeds `GWTIndicators._gwt1`. -/
def gwt1 (arch : Arch) : IndicatorResult :=
  let module_count := arch.specialized_module_count.getD 0
  let module_specialization := arch.module_specialization_score.getD 0
  let has_workspace := arch.has_central_workspace.getD false
  let score : ℚ :=
    min (module_count / 10) 0.4 + module_specialization * 0.3
      + (if has_workspace then 0.3 else 0)
  let score := min score 1
  { indicator_id := "GWT-1", theory := "GWT", name := "Specialized Modules",
    description := "System has multiple specialized processing modules",
    score := score, satisfied := decide (score ≥ 0.7), partFlag := decide (score ≥ 0.3) }

/-- The `broadcast_latency < 100` test of `_gwt2`, where the latency was read
by `arch.get("broadcast_latency_ms", float("inf"))`: a missing field behaves
as `+∞`, for which the comparison is `False`. -/
def latencyLt100 (x : Option ℚ) : Bool :=
  match x with
  | some l => decide (l < 100)
  | none => false

/-- Embeds `GWTIndicators._gwt2`. -/
def gwt2 (arch : Arch) (behaviors : Behaviors) : IndicatorResult :=
  let broadcast_capability := arch.global_broadcast_capability.getD 0
  let ignition_detected := behaviors.workspace_ignition_detected.getD false
  let score : ℚ :=
    broadcast_capability * 0.4 + (if ignition_detected then 0.4 else 0)
      + (if latencyLt100 arch.broadcast_latency_ms then 0.2 else 0)
  let score := min score 1
  { indicator_id := "GWT-2", theory := "GWT", name := "Global Broadcast",
    description := "Information can be broadcast globally across all modules",
    score := score, satisfied := decide (score ≥ 0.7), partFlag := decide (score ≥ 0.3) }

/-- Embeds `GWTIndicators._gwt3`. -/
def gwt3 (arch : Arch) : IndicatorResult :=
  let routing_flexibility := arch.routing_flexibility.getD 0
  let dynamic_routing := arch.has_dynamic_routing.getD false
  let attention_mechanism := arch.has_attention_mechanism.getD false
  let score : ℚ :=
    routing_flexibility * 0.4 + (if dynamic_routing then 0.3 else 0)
      + (if attention_mechanism then 0.3 else 0)
  let score := min score 1
  { indicator_id := "GWT-3", theory := "GWT", name := "Flexible Routing",
    description := "Information routing is flexible and context-dependent",
    score := score, satisfied := decide (score ≥ 0.7), partFlag := decide (score ≥ 0.3) }

/-- Embeds `GWTIndicators.evaluate`. -/
def gwtEvaluate (p : Profile) : List IndicatorResult :=
  [gwt1 p.architecture, gwt2 p.architecture p.behaviors, gwt3 p.architecture]

/-! ## HOT evaluators (`hot_indicators.py`) -/

/-- Embeds `HOTIndicators._hot1`. -/
def hot1 (arch : Arch) (internal : InternalStates) : IndicatorResult :=
  let has_meta_representations := arch.has_meta_representations.getD false
  let meta_depth := arch.meta_representation_depth.getD 0
  let self_model := internal.has_self_model.getD false
  let score : ℚ :=
    (if has_meta_representations then 0.4 else 0) + min (meta_depth / 5) 0.3
      + (if self_model then 0.3 else 0)
  let score := min score 1
  { indicator_id := "HOT-1", theory := "HOT", name := "Higher-Order Representations",
    description := "System has representations of its own representational states",
    score := score, satisfied := decide (score ≥ 0.7), partFlag := decide (score ≥ 0.3) }

/-- Embeds `HOTIndicators._hot2`. -/
def hot2 (behaviors : Behaviors) : IndicatorResult :=
  let uncertainty_monitoring := behaviors.uncertainty_monitoring.getD 0
  let confidence_calibration := behaviors.confidence_calibration.getD 0
  let error_detection := behaviors.error_detection_rate.getD 0
  let score : ℚ :=
    uncertainty_monitoring * 0.35 + confidence_calibration * 0.35 + error_detection * 0.3
  let score := min score 1
  { indicator_id := "HOT-2", theory := "HOT", name := "Metacognition",
    description := "System monitors its own uncertainty and calibrates confidence",
    score := score, satisfied := decide (score ≥ 0.7), partFlag := decide (score ≥ 0.3) }

/-- Embeds `HOTIndicators._hot3`. -/
def hot3 (behaviors : Behaviors) : IndicatorResult :=
  let agency_score := behaviors.agency_score.getD 0
  let systematic_preferences := behaviors.systematic_preferences.getD false
  let goal_directed := behaviors.goal_directed_behavior.getD false
  let score : ℚ :=
    agency_score * 0.4 + (if systematic_preferences then 0.3 else 0)
      + (if goal_directed then 0.3 else 0)
  let score := min score 1
  { indicator_id := "HOT-3", theory := "HOT", name := "Agency & Preferences",
    description := "System exhibits systematic preferences and goal-directed behavior",
    score := score, satisfied := decide (score ≥ 0.7), partFlag := decide (score ≥ 0.3) }

/-- Embeds `HOTIndicators._hot4`. -/
def hot4 (arch : Arch) : IndicatorResult :=
  let embedding_smoothness := arch.embedding_smoothness.getD 0
  let continuous_representations := arch.has_continuous_representations.getD false
  let interpolation_quality := arch.interpolation_quality.getD 0
  let score : ℚ :=
    embedding_smoothness * 0.4 + (if continuous_representations then 0.3 else 0)
      + interpolation_quality * 0.3
  let score := min score 1
  { indicator_id := "HOT-4", theory := "HOT", name := "Smooth Representations",
    description := "System uses smooth, graded representational spaces (trivially satisfied by deep nets)",
    score := score, satisfied := decide (score ≥ 0.7), partFlag := decide (score ≥ 0.3) }

/-- Embeds `HOTIndicators.evaluate`. -/
def hotEvaluate (p : Profile) : List IndicatorResult :=
  [hot1 p.architecture p.internal_states, hot2 p.behaviors, hot3 p.behaviors,
   hot4 p.architecture]

/-! ## PP evaluators (`pp_indicators.py`) -/

/-- Embeds `PPIndicators._pp1`. -/
def pp1 (arch : Arch) : IndicatorResult :=
  let hierarchical_depth := arch.hierarchical_depth.getD 0
  let has_top_down := arch.has_top_down_predictions.getD false
  let generative_model := arch.has_generative_model.getD false
  let score : ℚ :=
    min (hierarchical_depth / 12) 0.4 + (if has_top_down then 0.3 else 0)
      + (if generative_model then 0.3 else 0)
  let score := min score 1
  { indicator_id := "PP-1", theory := "PP", name := "Hierarchical Prediction",
    description := "System has hierarchical predictive model with top-down predictions",
    score := score, satisfied := decide (score ≥ 0.7), partFlag := decide (score ≥ 0.3) }

/-- Embeds `PPIndicators._pp2`.  Note the source default for a missing
`mean_prediction_error` is `1.0`, the least favorable error. -/
def pp2 (arch : Arch) (internal : InternalStates) : IndicatorResult :=
  let pe_minimization := arch.prediction_error_minimization.getD false
  let mean_pe := internal.mean_prediction_error.getD 1
  let pe_convergence := internal.prediction_error_convergence.getD 0
  let score : ℚ :=
    (if pe_minimization then 0.4 else 0) + max 0 (1 - mean_pe) * 0.3
      + pe_convergence * 0.3
  let score := min score 1
  { indicator_id := "PP-2", theory := "PP", name := "Error Minimization",
    description := "System actively minimizes prediction errors across hierarchical levels",
    score := score, satisfied := decide (score ≥ 0.7), partFlag := decide (score ≥ 0.3) }

/-- Embeds `PPIndicators.evaluate`. -/
def ppEvaluate (p : Profile) : List IndicatorResult :=
  [pp1 p.architecture, pp2 p.architecture p.internal_states]

/-! ## AST evaluators (`ast_indicators.py`) -/

/-- Embeds `ASTIndicators._ast1`. -/
def ast1 (arch : Arch) (internal : InternalStates) : IndicatorResult :=
  let has_attention_model := arch.has_attention_schema.getD false
  let attention_self_report := internal.can_report_attention_state.getD false
  let attention_accuracy := internal.attention_model_accuracy.getD 0
  let score : ℚ :=
    (if has_attention_model then 0.4 else 0) + (if attention_self_report then 0.3 else 0)
      + attention_accuracy * 0.3
  let score := min score 1
  { indicator_id := "AST-1", theory := "AST", name := "Attention Schema",
    description := "System has a simplified model of its own attention processes",
    score := score, satisfied := decide (score ≥ 0.7), partFlag := decide (score ≥ 0.3) }

/-- Embeds `ASTIndicators._ast2`. -/
def ast2 (behaviors : Behaviors) (internal : InternalStates) : IndicatorResult :=
  let attention_guided_behavior := behaviors.attention_guided_behavior.getD 0
  let attention_allocation := internal.dynamic_attention_allocation.getD false
  let priority_weighting := internal.priority_based_weighting.getD 0
  let score : ℚ :=
    attention_guided_behavior * 0.4 + (if attention_allocation then 0.3 else 0)
      + priority_weighting * 0.3
  let score := min score 1
  { indicator_id := "AST-2", theory := "AST", name := "Attention-Guided Behavior",
    description := "System uses its attention model to guide behavior and self-reports",
    score := score, satisfied := decide (score ≥ 0.7), partFlag := decide (score ≥ 0.3) }

/-- Embeds `ASTIndicators.evaluate`. -/
def astEvaluate (p : Profile) : List IndicatorResult :=
  [ast1 p.architecture p.internal_states, ast2 p.behaviors p.internal_states]

/-! ## Indicator orchestration (`IndicatorEngine.assess`, steps 1–3) -/

/-- The 14 indicators in fixed theory order RPT, GWT, HOT, PP, AST
(the five `indicators.extend(...)` calls of `assess`). -/
def runIndicators (p : Profile) : List IndicatorResult :=
  rptEvaluate p ++ gwtEvaluate p ++ hotEvaluate p ++ ppEvaluate p ++ astEvaluate p

/-- Embeds `satisfied = sum(1 for i in indicators if i.satisfied)`. -/
def satisfiedCount (inds : List IndicatorResult) : ℕ :=
  inds.countP (·.satisfied)

/-- Embeds `partial = sum(1 for i in indicators if i.partial and not i.satisfied)`. -/
def partCount (inds : List IndicatorResult) : ℕ :=
  inds.countP (fun i => i.partFlag && !i.satisfied)

/-- Mean score of one theory's indicators (`0.0` when the theory has none). -/
def theoryScore (inds : List IndicatorResult) (t : String) : ℚ :=
  let theory_inds := inds.filter (·.theory = t)
  if theory_inds.length ≠ 0 then
    (theory_inds.map (·.score)).sum / theory_inds.length
  else 0

/-- Embeds `theory_scores`, built for `["RPT", "GWT", "HOT", "PP", "AST"]` in that
insertion order. -/
def theoryScores (inds : List IndicatorResult) : List (String × ℚ) :=
  ["RPT", "GWT", "HOT", "PP", "AST"].map (fun t => (t, theoryScore inds t))

/-! ## Bayesian credence aggregator (`bayesian_credence.py`) -/

/-- Embeds `BayesianCredenceAggregator.PRIOR_CREDENCE`. -/
def PRIOR_CREDENCE : ℚ := 0.05

/-- Embeds `BayesianCredenceAggregator.LIKELIHOOD_SATISFIED`. -/
def LIKELIHOOD_SATISFIED : ℚ := 0.85

/-- Embeds `BayesianCredenceAggregator.LIKELIHOOD_PARTIAL`. -/
def LIKELIHOOD_PARTIAL : ℚ := 0.55

/-- Embeds `BayesianCredenceAggregator.LIKELIHOOD_NOT_SATISFIED`. -/
def LIKELIHOOD_NOT_SATISFIED : ℚ := 0.15

/-- Embeds `THEORY_WEIGHTS.get(theory, 0.1)`: the fixed per-theory weights with the
default weight `0.1` for a theory outside the table. -/
def theoryWeight (t : String) : ℚ :=
  if t = "RPT" then 0.15
  else if t = "GWT" then 0.25
  else if t = "HOT" then 0.25
  else if t = "PP" then 0.15
  else if t = "AST" then 0.2
  else 0.1

/-- The likelihood ratio `lr` selected by `aggregate`'s
`if satisfied / elif partial / else` chain. -/
def likelihoodRatio (satisfied partFlag : Bool) : ℚ :=
  if satisfied then LIKELIHOOD_SATISFIED / (1 - LIKELIHOOD_SATISFIED)
  else if partFlag then LIKELIHOOD_PARTIAL / (1 - LIKELIHOOD_PARTIAL)
  else LIKELIHOOD_NOT_SATISFIED / (1 - LIKELIHOOD_NOT_SATISFIED)

/-- The running sum `log_likelihood_ratio` accumulated by `aggregate`'s loop:
`weight * np.log(lr + 1e-10)` per indicator.  (Note the `1e-10` guard the
source adds inside the logarithm.) -/
noncomputable def logLikelihoodRatioSum (inds : List IndicatorResult) : ℝ :=
  inds.foldl
    (fun acc i =>
      acc + (theoryWeight i.theory : ℝ)
        * Real.log ((likelihoodRatio i.satisfied i.partFlag : ℝ) + 1e-10)) 0

/-- Embeds `theory_bonus`: `0.03 * THEORY_WEIGHTS.get(theory, 0.1)` for every entry
of `theory_scores` with score `≥ 0.7`. -/
def theoryBonus (ts : List (String × ℚ)) : ℚ :=
  ts.foldl (fun acc p => if p.2 ≥ 0.7 then acc + 0.03 * theoryWeight p.1 else acc) 0

/-- Embeds `BayesianCredenceAggregator.aggregate`. -/
noncomputable def aggregate (inds : List IndicatorResult) (ts : List (String × ℚ)) : ℝ :=
  let log_likelihood_ratio := logLikelihoodRatioSum inds
  let prior_odds : ℝ := (PRIOR_CREDENCE : ℝ) / (1 - (PRIOR_CREDENCE : ℝ))
  let posterior_odds := prior_odds * Real.exp log_likelihood_ratio
  let posterior := posterior_odds / (1 + posterior_odds)
  min 0.99 (posterior + (theoryBonus ts : ℝ))

/-- Embeds `MockIndicator(ind)`: same `indicator_id` and `theory`, with `satisfied`
and `partial` forced to `False` and `score` to `0.0`.  (`name` and
`description` are never read by `aggregate`; the record update keeps them.) -/
def mockIndicator (ind : IndicatorResult) : IndicatorResult :=
  { ind with satisfied := false, partFlag := false, score := 0 }

/-- Embeds `BayesianCredenceAggregator.sensitivity_analysis`: leave-one-out
contributions, as the association list the Python dict builds in
enumeration order. -/
noncomputable def sensitivity_analysis (inds : List IndicatorResult)
    (ts : List (String × ℚ)) : List (String × ℝ) :=
  let base_credence := aggregate inds ts
  inds.enum.map fun p =>
    (p.2.indicator_id, base_credence - aggregate (inds.set p.1 (mockIndicator p.2)) ts)

/-! ## SHA-256 (FIPS 180-4), over `Nat` bytes

`indicator_engine.py` calls `hashlib.sha256(proof_data.encode())`; this is
the mathematical SHA-256 function, implemented here from the standard.
Bytes are `Nat`s `< 256` and 32-bit words `Nat`s reduced mod `2^32`. -/

/-- Reduce to a 32-bit word. -/
def w32 (n : ℕ) : ℕ := n % 4294967296

/-- Right rotation of a 32-bit word. -/
def rotr32 (r x : ℕ) : ℕ := w32 ((x >>> r) ||| (x <<< (32 - r)))

/-- The 64 SHA-256 round constants. -/
def sha256K : List ℕ :=
  [1116352408, 1899447441, 3049323471, 3921009573, 961987163, 1508970993,
   2453635748, 2870763221, 3624381080, 310598401, 607225278, 1426881987,
   1925078388, 2162078206, 2614888103, 3248222580, 3835390401, 4022224774,
   264347078, 604807628, 770255983, 1249150122, 1555081692, 1996064986,
   2554220882, 2821834349, 2952996808, 3210313671, 3336571891, 3584528711,
   113926993, 338241895, 666307205, 773529912, 1294757372, 1396182291,
   1695183700, 1986661051, 2177026350, 2456956037, 2730485921, 2820302411,
   3259730800, 3345764771, 3516065817, 3600352804, 4094571909, 275423344,
   430227734, 506948616, 659060556, 883997877, 958139571, 1322822218,
   1537002063, 1747873779, 1955562222, 2024104815, 2227730452, 2361852424,
   2428436474, 2756734187, 3204031479, 3329325298]

/-- SHA-256 compression state: the eight 32-bit working registers. -/
structure Sha256State where
  a : ℕ
  b : ℕ
  c : ℕ
  d : ℕ
  e : ℕ
  f : ℕ
  g : ℕ
  h : ℕ

/-- The SHA-256 initial hash value. -/
def sha256H0 : Sha256State :=
  ⟨1779033703, 3144134277, 1013904242, 2773480762, 1359893119, 2600822924,
   528734635, 1541459225⟩

/-- Big-endian 32-bit word at word index `i` of a byte block. -/
def wordAt (blk : List ℕ) (i : ℕ) : ℕ :=
  (blk.getD (4 * i) 0) <<< 24 ||| (blk.getD (4 * i + 1) 0) <<< 16
    ||| (blk.getD (4 * i + 2) 0) <<< 8 ||| blk.getD (4 * i + 3) 0

/-- The 64-entry message schedule of one 64-byte block. -/
def sha256Schedule (blk : List ℕ) : Array ℕ :=
  let w0 : Array ℕ := ((List.range 16).map (wordAt blk)).toArray
  (List.range 48).foldl
    (fun w t =>
      let i := t + 16
      let x15 := w.getD (i - 15) 0
      let x2 := w.getD (i - 2) 0
      let s0 := (rotr32 7 x15) ^^^ (rotr32 18 x15) ^^^ (x15 >>> 3)
      let s1 := (rotr32 17 x2) ^^^ (rotr32 19 x2) ^^^ (x2 >>> 10)
      w.push (w32 (w.getD (i - 16) 0 + s0 + w.getD (i - 7) 0 + s1)))
    w0

/-- One SHA-256 round. -/
def sha256Round (w : Array ℕ) (s : Sha256State) (t : ℕ) : Sha256State :=
  let S1 := (rotr32 6 s.e) ^^^ (rotr32 11 s.e) ^^^ (rotr32 25 s.e)
  let ch := (s.e &&& s.f) ^^^ ((s.e ^^^ 4294967295) &&& s.g)
  let temp1 := w32 (s.h + S1 + ch + sha256K.getD t 0 + w.getD t 0)
  let S0 := (rotr32 2 s.a) ^^^ (rotr32 13 s.a) ^^^ (rotr32 22 s.a)
  let maj := (s.a &&& s.b) ^^^ (s.a &&& s.c) ^^^ (s.b &&& s.c)
  let temp2 := w32 (S0 + maj)
  ⟨w32 (temp1 + temp2), s.a, s.b, s.c, w32 (s.d + temp1), s.e, s.f, s.g⟩

/-- Compress one 64-byte block into the running state. -/
def sha256Compress (st : Sha256State) (blk : List ℕ) : Sha256State :=
  let w := sha256Schedule blk
  let f := (List.range 64).foldl (sha256Round w) st
  ⟨w32 (st.a + f.a), w32 (st.b + f.b), w32 (st.c + f.c), w32 (st.d + f.d),
   w32 (st.e + f.e), w32 (st.f + f.f), w32 (st.g + f.g), w32 (st.h + f.h)⟩

/-- SHA-256 padding: append `0x80`, zeros to 56 mod 64, then the bit length
as 8 big-endian bytes. -/
def sha256Pad (msg : List ℕ) : List ℕ :=
  let L := msg.length * 8
  let zeros := (119 - msg.length % 64) % 64
  msg ++ [128] ++ List.replicate zeros 0
    ++ (List.range 8).map (fun i => (L >>> (8 * (7 - i))) % 256)

/-- Split a byte list into 64-byte blocks. -/
def toBlocks (l : List ℕ) : List (List ℕ) :=
  if h : l = [] then []
  else
    have : (l.drop 64).length < l.length := by
      cases l with
      | nil => exact absurd rfl h
      | cons x xs => simp [List.length_drop]; omega
    l.take 64 :: toBlocks (l.drop 64)
termination_by l.length

/-- Big-endian bytes of a 32-bit word. -/
def wordBytes (x : ℕ) : List ℕ :=
  [(x >>> 24) % 256, (x >>> 16) % 256, (x >>> 8) % 256, x % 256]

/-- SHA-256 digest (32 bytes) of a byte string. -/
def sha256 (msg : List ℕ) : List ℕ :=
  let fin := (toBlocks (sha256Pad msg)).foldl sha256Compress sha256H0
  [fin.a, fin.b, fin.c, fin.d, fin.e, fin.f, fin.g, fin.h].flatMap wordBytes

/-- Lowercase hex digit. -/
def hexChar (n : ℕ) : Char :=
  if n < 10 then Char.ofNat (48 + n) else Char.ofNat (87 + n)

/-- Lowercase hex string of a byte list (`hexdigest()`). -/
def hexDigest (bytes : List ℕ) : String :=
  String.mk (bytes.flatMap fun b => [hexChar (b / 16), hexChar (b % 16)])

/-- UTF-8 bytes of a string (`str.encode()`). -/
def strBytes (s : String) : List ℕ :=
  s.toUTF8.toList.map UInt8.toNat

/-! ## Engine (`indicator_engine.py`)

`json.dumps(..., sort_keys=True)` serializes the proof record with
lexicographically sorted keys and separators `", "`, `": "`.  Python's
float-to-decimal rendering is the runtime's formatting; it enters as the
`render : ℝ → String` parameter and no theorem depends on it. -/

/-- A JSON string literal.  (The serialized names here contain no
characters needing escapes; `json.dumps` escaping is not modelled.) -/
def jsonStr (s : String) : String := "\"" ++ s ++ "\""

/-- A JSON object from already-serialized key/value pairs, with
`json.dumps`'s default separators. -/
def jsonObj (fields : List (String × String)) : String :=
  "\x7b" ++ String.intercalate ", " (fields.map fun kv => jsonStr kv.1 ++ ": " ++ kv.2)
    ++ "\x7d"

/-- Insert into a key-sorted list of serialized fields. -/
def insortField (x : String × String) : List (String × String) → List (String × String)
  | [] => [x]
  | y :: ys => if x.1 < y.1 then x :: y :: ys else y :: insortField x ys

/-- Sort serialized fields by key (what `sort_keys=True` does to a dict). -/
def sortFields (l : List (String × String)) : List (String × String) :=
  l.foldr insortField []

/-- The key order in which the proof record is serialized. -/
def proofDataKeys : List String :=
  ["credence", "partial", "prev", "satisfied", "system", "theories"]

/-- The serialized `proof_data` record of `assess`:
`json.dumps({"system": ..., "credence": ..., "satisfied": ..., "partial": ...,
"theories": ..., "prev": ...}, sort_keys=True, default=str)`, with the keys
(recursively) in lexicographic order. -/
def serializeProofData (render : ℝ → String) (system : String) (credence : ℝ)
    (satisfied part : ℕ) (theories : List (String × ℚ)) (prev : String) : String :=
  jsonObj
    (List.zip proofDataKeys
      [render credence, toString part, jsonStr prev, toString satisfied, jsonStr system,
       jsonObj (sortFields (theories.map fun q => (q.1, render (q.2 : ℝ))))])

/-- Embeds `f"sha256:{hashlib.sha256(proof_data.encode()).hexdigest()[:32]}"` —
the literal prefix followed by the first 32 characters of the hex digest. -/
def mkProofHash (proof_data : String) : String :=
  "sha256:" ++ String.mk (((sha256 (strBytes proof_data)).flatMap
    fun b => [hexChar (b / 16), hexChar (b % 16)]).take 32)

/-- Embeds the `AssessmentResult` dataclass (the Python field `partial_count` is
`part_count` here; `to_dict`/`render_report` presentation is not modelled). -/
structure AssessmentResult where
  system_name : String
  system_type : String
  timestamp : String
  indicators : List IndicatorResult
  credence : ℝ
  satisfied_count : ℕ
  part_count : ℕ
  total_indicators : ℕ
  theory_scores : List (String × ℚ)
  proof_hash : String

/-- Embeds `self.history[-1].proof_hash if self.history else "GENESIS"`. -/
def prevHash (history : List AssessmentResult) : String :=
  match history.getLast? with
  | some a => a.proof_hash
  | none => "GENESIS"

/-- Embeds `IndicatorEngine.assess`.  The engine's only state is its history, which
is passed explicitly; the wall clock enters as the `timestamp` argument. -/
noncomputable def assess (render : ℝ → String) (history : List AssessmentResult)
    (p : Profile) (timestamp : String) : AssessmentResult :=
  let indicators := runIndicators p
  let satisfied := satisfiedCount indicators
  let part := partCount indicators
  let theory_scores := theoryScores indicators
  let credence := aggregate indicators theory_scores
  let proof_data := serializeProofData render (p.metadata.name.getD "unknown")
    credence satisfied part theory_scores (prevHash history)
  { system_name := p.metadata.name.getD "Unknown System",
    system_type := p.metadata.type.getD "Unknown",
    timestamp := timestamp,
    indicators := indicators,
    credence := credence,
    satisfied_count := satisfied,
    part_count := part,
    total_indicators := indicators.length,
    theory_scores := theory_scores,
    proof_hash := mkProofHash proof_data }

/-- Embeds `assess` together with its final `self.history.append(result)`. -/
noncomputable def assessAppend (render : ℝ → String) (history : List AssessmentResult)
    (p : Profile) (timestamp : String) : List AssessmentResult :=
  history ++ [assess render history p timestamp]

/-! ## Assessment runner (`assessment_runner.py`) -/

/-- Embeds `REFERENCE_PROFILES["ORION-Active-Inference"]`. -/
def orionProfile : Profile where
  metadata := { name := some "ORION-Active-Inference Agent", type := some "Active Inference" }
  architecture :=
    { has_recurrent_connections := some true, recurrence_depth := some 8,
      feedback_loop_count := some 5, feedback_connection_richness := some 0.8,
      bidirectional_connections := some true, cross_layer_feedback := some 6,
      specialized_module_count := some 6, module_specialization_score := some 0.85,
      has_central_workspace := some true, global_broadcast_capability := some 0.78,
      broadcast_latency_ms := some 10, routing_flexibility := some 0.75,
      has_dynamic_routing := some true, has_attention_mechanism := some true,
      has_meta_representations := some true, meta_representation_depth := some 5,
      embedding_smoothness := some 0.7, has_continuous_representations := some true,
      interpolation_quality := some 0.65, hierarchical_depth := some 8,
      has_top_down_predictions := some true, has_generative_model := some true,
      prediction_error_minimization := some true, has_attention_schema := some true }
  behaviors :=
    { workspace_ignition_detected := some true, uncertainty_monitoring := some 0.75,
      confidence_calibration := some 0.70, error_detection_rate := some 0.80,
      agency_score := some 0.85, systematic_preferences := some true,
      goal_directed_behavior := some true, attention_guided_behavior := some 0.80 }
  internal_states :=
    { has_self_model := some true, can_report_attention_state := some true,
      attention_model_accuracy := some 0.75, dynamic_attention_allocation := some true,
      priority_based_weighting := some 0.70, mean_prediction_error := some 0.25,
      prediction_error_convergence := some 0.80 }

/-- Embeds `REFERENCE_PROFILES["GPT-4"]`. -/
def gpt4Profile : Profile where
  metadata := { name := some "GPT-4", type := some "Large Language Model" }
  architecture :=
    { has_recurrent_connections := some false, recurrence_depth := some 0,
      feedback_loop_count := some 0, feedback_connection_richness := some 0,
      bidirectional_connections := some false, cross_layer_feedback := some 0,
      specialized_module_count := some 1, module_specialization_score := some 0.1,
      has_central_workspace := some false, global_broadcast_capability := some 0.3,
      broadcast_latency_ms := some 500, routing_flexibility := some 0.4,
      has_dynamic_routing := some false, has_attention_mechanism := some true,
      has_meta_representations := some false, meta_representation_depth := some 0,
      embedding_smoothness := some 0.95, has_continuous_representations := some true,
      interpolation_quality := some 0.90, hierarchical_depth := some 96,
      has_top_down_predictions := some false, has_generative_model := some true,
      prediction_error_minimization := some false, has_attention_schema := some false }
  behaviors :=
    { workspace_ignition_detected := some false, uncertainty_monitoring := some 0.55,
      confidence_calibration := some 0.50, error_detection_rate := some 0.40,
      agency_score := some 0.30, systematic_preferences := some true,
      goal_directed_behavior := some false, attention_guided_behavior := some 0.20 }
  internal_states :=
    { has_self_model := some false, can_report_attention_state := some false,
      attention_model_accuracy := some 0, dynamic_attention_allocation := some false,
      priority_based_weighting := some 0, mean_prediction_error := some 0.50,
      prediction_error_convergence := some 0.30 }

/-- Embeds `REFERENCE_PROFILES["C-elegans-302-neurons"]`. -/
def celegansProfile : Profile where
  metadata := { name := some "C. elegans (302 neurons)",
                type := some "Biological Neural Network" }
  architecture :=
    { has_recurrent_connections := some true, recurrence_depth := some 4,
      feedback_loop_count := some 3, feedback_connection_richness := some 0.6,
      bidirectional_connections := some true, cross_layer_feedback := some 3,
      specialized_module_count := some 4, module_specialization_score := some 0.5,
      has_central_workspace := some false, global_broadcast_capability := some 0.25,
      broadcast_latency_ms := some 50, routing_flexibility := some 0.3,
      has_dynamic_routing := some true, has_attention_mechanism := some false,
      has_meta_representations := some false, meta_representation_depth := some 0,
      embedding_smoothness := some 0.4, has_continuous_representations := some true,
      interpolation_quality := some 0.3, hierarchical_depth := some 3,
      has_top_down_predictions := some true, has_generative_model := some true,
      prediction_error_minimization := some true, has_attention_schema := some false }
  behaviors :=
    { workspace_ignition_detected := some false, uncertainty_monitoring := some 0.10,
      confidence_calibration := some 0.10, error_detection_rate := some 0.20,
      agency_score := some 0.60, systematic_preferences := some true,
      goal_directed_behavior := some true, attention_guided_behavior := some 0.15 }
  internal_states :=
    { has_self_model := some false, can_report_attention_state := some false,
      attention_model_accuracy := some 0, dynamic_attention_allocation := some false,
      priority_based_weighting := some 0, mean_prediction_error := some 0.40,
      prediction_error_convergence := some 0.50 }

/-- Embeds `REFERENCE_PROFILES["Thermostat"]`. -/
def thermostatProfile : Profile where
  metadata := { name := some "Simple Thermostat", type := some "Classical Control System" }
  architecture :=
    { has_recurrent_connections := some true, recurrence_depth := some 1,
      feedback_loop_count := some 1, feedback_connection_richness := some 0.1,
      bidirectional_connections := some false, cross_layer_feedback := some 0,
      specialized_module_count := some 1, module_specialization_score := some 0,
      has_central_workspace := some false, global_broadcast_capability := some 0,
      broadcast_latency_ms := some 1000, routing_flexibility := some 0,
      has_dynamic_routing := some false, has_attention_mechanism := some false,
      has_meta_representations := some false, meta_representation_depth := some 0,
      embedding_smoothness := some 0, has_continuous_representations := some false,
      interpolation_quality := some 0, hierarchical_depth := some 1,
      has_top_down_predictions := some false, has_generative_model := some false,
      prediction_error_minimization := some false, has_attention_schema := some false }
  behaviors :=
    { workspace_ignition_detected := some false, uncertainty_monitoring := some 0,
      confidence_calibration := some 0, error_detection_rate := some 0,
      agency_score := some 0, systematic_preferences := some false,
      goal_directed_behavior := some false, attention_guided_behavior := some 0 }
  internal_states :=
    { has_self_model := some false, can_report_attention_state := some false,
      attention_model_accuracy := some 0, dynamic_attention_allocation := some false,
      priority_based_weighting := some 0, mean_prediction_error := some 0.80,
      prediction_error_convergence := some 0 }

/-- Embeds `AssessmentRunner.REFERENCE_PROFILES`, as the association list the dict
holds in insertion order. -/
def REFERENCE_PROFILES : List (String × Profile) :=
  [("ORION-Active-Inference", orionProfile), ("GPT-4", gpt4Profile),
   ("C-elegans-302-neurons", celegansProfile), ("Thermostat", thermostatProfile)]

/-- Embeds `AssessmentRunner.run_reference`: Not-Found (with the list of available
names) when the name is absent from the catalog, otherwise the engine's
assessment; on success the runner's engine history grows by the result. -/
noncomputable def run_reference (render : ℝ → String) (history : List AssessmentResult)
    (system_name : String) (timestamp : String) :
    Except (List String) (AssessmentResult × List AssessmentResult) :=
  match REFERENCE_PROFILES.lookup system_name with
  | none => .error (REFERENCE_PROFILES.map Prod.fst)
  | some p =>
    .ok (assess render history p timestamp, assessAppend render history p timestamp)

/-! ## Reference definition of the aggregate from the spec's words (claim C1) -/

/-- The per-theory weight table as the spec words it: RPT 0.15, GWT 0.25,
HOT 0.25, PP 0.15, AST 0.20, and 0.1 for unknown theories. -/
def specTheoryWeight (t : String) : ℚ :=
  if t = "RPT" then 0.15
  else if t = "GWT" then 0.25
  else if t = "HOT" then 0.25
  else if t = "PP" then 0.15
  else if t = "AST" then 0.20
  else 0.1

/-- The likelihood-ratio constants as the spec words them: `0.85/0.15` if
satisfied, `0.55/0.45` if partial and not satisfied, `0.15/0.85` otherwise. -/
def specLikelihoodRatio (satisfied partFlag : Bool) : ℚ :=
  if satisfied then 0.85 / 0.15
  else if partFlag then 0.55 / 0.45
  else 0.15 / 0.85

/-- Claim C1's reference aggregate, following the spec's words: sum over
indicators of the per-theory weight times the natural logarithm of the
likelihood ratio (with NO `1e-10` guard), convert the prior 0.05 to odds,
multiply by the exponential of the sum, convert back to a probability, add
`0.03 ×` theory weight per theory whose mean score is `≥ 0.7`, and clamp to
at most 0.99. -/
noncomputable def aggregateSpec (inds : List IndicatorResult)
    (ts : List (String × ℚ)) : ℝ :=
  let s := (inds.map fun i =>
    (specTheoryWeight i.theory : ℝ)
      * Real.log (specLikelihoodRatio i.satisfied i.partFlag : ℝ)).sum
  let prior_odds : ℝ := 0.05 / (1 - 0.05)
  let posterior_odds := prior_odds * Real.exp s
  let posterior := posterior_odds / (1 + posterior_odds)
  let bonus := ((ts.filter fun q => decide (q.2 ≥ 0.7)).map
    fun q => 0.03 * (specTheoryWeight q.1 : ℝ)).sum
  min (posterior + bonus) 0.99

/-- Embeds `aggregateSpec` amended exactly as the code forces: the natural
logarithm is taken of (likelihood ratio + `1e-10`). -/
noncomputable def aggregateSpecAmended (inds : List IndicatorResult)
    (ts : List (String × ℚ)) : ℝ :=
  let s := (inds.map fun i =>
    (specTheoryWeight i.theory : ℝ)
      * Real.log ((specLikelihoodRatio i.satisfied i.partFlag : ℝ) + 1e-10)).sum
  let prior_odds : ℝ := 0.05 / (1 - 0.05)
  let posterior_odds := prior_odds * Real.exp s
  let posterior := posterior_odds / (1 + posterior_odds)
  let bonus := ((ts.filter fun q => decide (q.2 ≥ 0.7)).map
    fun q => 0.03 * (specTheoryWeight q.1 : ℝ)).sum
  min (posterior + bonus) 0.99

/-! ## Claim-specific profiles, orders and abbreviations -/

/-- The concrete profile of claim C6: architecture
`{has_recurrent_connections: true, recurrence_depth: 10,
feedback_loop_count: 5}`, everything else absent. -/
def c6Profile : Profile where
  architecture := { has_recurrent_connections := some true, recurrence_depth := some 10,
                    feedback_loop_count := some 5 }

/-- The empty profile `{}`. -/
def emptyProfile : Profile := {}

/-- The explicit-default profile claim C7 describes: every boolean field
present and `false`, every numeric field present and `0`, and the two
least-favorable-by-largeness defaults — `broadcast_latency_ms` (read with
default `float("inf")`) as a large value `10^6`, and
`mean_prediction_error` (read with default `1.0`, its least favorable
value) as `1`. -/
def c7DefaultsProfile : Profile where
  architecture :=
    { has_recurrent_connections := some false, recurrence_depth := some 0,
      feedback_loop_count := some 0, feedback_connection_richness := some 0,
      bidirectional_connections := some false, cross_layer_feedback := some 0,
      specialized_module_count := some 0, module_specialization_score := some 0,
      has_central_workspace := some false, global_broadcast_capability := some 0,
      broadcast_latency_ms := some 1000000, routing_flexibility := some 0,
      has_dynamic_routing := some false, has_attention_mechanism := some false,
      has_meta_representations := some false, meta_representation_depth := some 0,
      embedding_smoothness := some 0, has_continuous_representations := some false,
      interpolation_quality := some 0, hierarchical_depth := some 0,
      has_top_down_predictions := some false, has_generative_model := some false,
      prediction_error_minimization := some false, has_attention_schema := some false }
  behaviors :=
    { workspace_ignition_detected := some false, uncertainty_monitoring := some 0,
      confidence_calibration := some 0, error_detection_rate := some 0,
      agency_score := some 0, systematic_preferences := some false,
      goal_directed_behavior := some false, attention_guided_behavior := some 0 }
  internal_states :=
    { has_self_model := some false, can_report_attention_state := some false,
      attention_model_accuracy := some 0, dynamic_attention_allocation := some false,
      priority_based_weighting := some 0, mean_prediction_error := some 1,
      prediction_error_convergence := some 0 }

/-- Every numeric field that is present in the profile is non-negative, as
resolved by the evaluators' `.get(_, 0)` defaults.  (Booleans are
unconstrained; `broadcast_latency_ms` and `mean_prediction_error` needd no
constraint: the first only feeds a `< 100` test, the second is guarded by
`max(0, ·)`.) -/
def NonnegProfile (p : Profile) : Prop :=
  0 ≤ p.architecture.recurrence_depth.getD 0
  ∧ 0 ≤ p.architecture.feedback_loop_count.getD 0
  ∧ 0 ≤ p.architecture.feedback_connection_richness.getD 0
  ∧ 0 ≤ p.architecture.cross_layer_feedback.getD 0
  ∧ 0 ≤ p.architecture.specialized_module_count.getD 0
  ∧ 0 ≤ p.architecture.module_specialization_score.getD 0
  ∧ 0 ≤ p.architecture.global_broadcast_capability.getD 0
  ∧ 0 ≤ p.architecture.routing_flexibility.getD 0
  ∧ 0 ≤ p.architecture.meta_representation_depth.getD 0
  ∧ 0 ≤ p.architecture.embedding_smoothness.getD 0
  ∧ 0 ≤ p.architecture.interpolation_quality.getD 0
  ∧ 0 ≤ p.architecture.hierarchical_depth.getD 0
  ∧ 0 ≤ p.behaviors.uncertainty_monitoring.getD 0
  ∧ 0 ≤ p.behaviors.confidence_calibration.getD 0
  ∧ 0 ≤ p.behaviors.error_detection_rate.getD 0
  ∧ 0 ≤ p.behaviors.agency_score.getD 0
  ∧ 0 ≤ p.behaviors.attention_guided_behavior.getD 0
  ∧ 0 ≤ p.internal_states.attention_model_accuracy.getD 0
  ∧ 0 ≤ p.internal_states.priority_based_weighting.getD 0
  ∧ 0 ≤ p.internal_states.prediction_error_convergence.getD 0

/-- The effective latency read by `_gwt2`:
`arch.get("broadcast_latency_ms", float("inf"))`, with `⊤` for `inf`. -/
def latencyVal (x : Option ℚ) : WithTop ℚ :=
  match x with
  | some l => (l : WithTop ℚ)
  | none => ⊤

/-- Profile order: `q` is pointwise at least as favorable as `p`, field by field, in the
resolved values the evaluators read: every boolean observation may turn
on, every plain numeric observation may grow, and the two
inverted-polarity fields — `broadcast_latency_ms` (with missing = `inf`)
and `mean_prediction_error` (missing = `1.0`) — may shrink.  Raising a
single raw field is the special case where all other resolved fields stay
equal. -/
structure ProfileLE (p q : Profile) : Prop where
  rec_conn : p.architecture.has_recurrent_connections.getD false = true →
    q.architecture.has_recurrent_connections.getD false = true
  rec_depth : p.architecture.recurrence_depth.getD 0 ≤ q.architecture.recurrence_depth.getD 0
  fb_loops : p.architecture.feedback_loop_count.getD 0
    ≤ q.architecture.feedback_loop_count.getD 0
  richness : p.architecture.feedback_connection_richness.getD 0
    ≤ q.architecture.feedback_connection_richness.getD 0
  bidir : p.architecture.bidirectional_connections.getD false = true →
    q.architecture.bidirectional_connections.getD false = true
  cross_layer : p.architecture.cross_layer_feedback.getD 0
    ≤ q.architecture.cross_layer_feedback.getD 0
  modules : p.architecture.specialized_module_count.getD 0
    ≤ q.architecture.specialized_module_count.getD 0
  mod_spec : p.architecture.module_specialization_score.getD 0
    ≤ q.architecture.module_specialization_score.getD 0
  workspace : p.architecture.has_central_workspace.getD false = true →
    q.architecture.has_central_workspace.getD false = true
  broadcast : p.architecture.global_broadcast_capability.getD 0
    ≤ q.architecture.global_broadcast_capability.getD 0
  ignition : p.behaviors.workspace_ignition_detected.getD false = true →
    q.behaviors.workspace_ignition_detected.getD false = true
  latency : latencyVal q.architecture.broadcast_latency_ms
    ≤ latencyVal p.architecture.broadcast_latency_ms
  rout_flex : p.architecture.routing_flexibility.getD 0
    ≤ q.architecture.routing_flexibility.getD 0
  dyn_routing : p.architecture.has_dynamic_routing.getD false = true →
    q.architecture.has_dynamic_routing.getD false = true
  attn_mech : p.architecture.has_attention_mechanism.getD false = true →
    q.architecture.has_attention_mechanism.getD false = true
  meta_rep : p.architecture.has_meta_representations.getD false = true →
    q.architecture.has_meta_representations.getD false = true
  meta_depth : p.architecture.meta_representation_depth.getD 0
    ≤ q.architecture.meta_representation_depth.getD 0
  self_model : p.internal_states.has_self_model.getD false = true →
    q.internal_states.has_self_model.getD false = true
  uncert : p.behaviors.uncertainty_monitoring.getD 0
    ≤ q.behaviors.uncertainty_monitoring.getD 0
  conf_cal : p.behaviors.confidence_calibration.getD 0
    ≤ q.behaviors.confidence_calibration.getD 0
  err_det : p.behaviors.error_detection_rate.getD 0
    ≤ q.behaviors.error_detection_rate.getD 0
  agency : p.behaviors.agency_score.getD 0 ≤ q.behaviors.agency_score.getD 0
  sys_pref : p.behaviors.systematic_preferences.getD false = true →
    q.behaviors.systematic_preferences.getD false = true
  goal_dir : p.behaviors.goal_directed_behavior.getD false = true →
    q.behaviors.goal_directed_behavior.getD false = true
  smooth : p.architecture.embedding_smoothness.getD 0
    ≤ q.architecture.embedding_smoothness.getD 0
  cont_rep : p.architecture.has_continuous_representations.getD false = true →
    q.architecture.has_continuous_representations.getD false = true
  interp : p.architecture.interpolation_quality.getD 0
    ≤ q.architecture.interpolation_quality.getD 0
  hier_depth : p.architecture.hierarchical_depth.getD 0
    ≤ q.architecture.hierarchical_depth.getD 0
  top_down : p.architecture.has_top_down_predictions.getD false = true →
    q.architecture.has_top_down_predictions.getD false = true
  gen_model : p.architecture.has_generative_model.getD false = true →
    q.architecture.has_generative_model.getD false = true
  pe_min : p.architecture.prediction_error_minimization.getD false = true →
    q.architecture.prediction_error_minimization.getD false = true
  mean_pe : q.internal_states.mean_prediction_error.getD 1
    ≤ p.internal_states.mean_prediction_error.getD 1
  pe_conv : p.internal_states.prediction_error_convergence.getD 0
    ≤ q.internal_states.prediction_error_convergence.getD 0
  attn_schema : p.architecture.has_attention_schema.getD false = true →
    q.architecture.has_attention_schema.getD false = true
  report_attn : p.internal_states.can_report_attention_state.getD false = true →
    q.internal_states.can_report_attention_state.getD false = true
  attn_acc : p.internal_states.attention_model_accuracy.getD 0
    ≤ q.internal_states.attention_model_accuracy.getD 0
  attn_guided : p.behaviors.attention_guided_behavior.getD 0
    ≤ q.behaviors.attention_guided_behavior.getD 0
  dyn_attn : p.internal_states.dynamic_attention_allocation.getD false = true →
    q.internal_states.dynamic_attention_allocation.getD false = true
  priority_w : p.internal_states.priority_based_weighting.getD 0
    ≤ q.internal_states.priority_based_weighting.getD 0

/-- The per-indicator summand of the log-likelihood-ratio loop. -/
noncomputable def llrTerm (i : IndicatorResult) : ℝ :=
  (theoryWeight i.theory : ℝ)
    * Real.log ((likelihoodRatio i.satisfied i.partFlag : ℝ) + 1e-10)

/-- A satisfied RPT indicator: the input at which the code's `aggregate` and
the claim's reference formula (no `1e-10` inside the logarithm) disagree. -/
def c1Ind : IndicatorResult :=
  { indicator_id := "RPT-1", theory := "RPT", name := "", description := "",
    score := 1, satisfied := true, partFlag := true }

/-- The concrete profile of C2's counterexample:
`feedback_connection_richness = −1`, all else absent. -/
def c2CexProfile : Profile where
  architecture := { feedback_connection_richness := some (-1) }

/-! ## Helper lemmas -/

/-- Both status flags derive from the score with thresholds 0.7 and 0.3. -/
theorem decide_ge_07_imp_03 (s : ℚ) (h : decide (s ≥ 0.7) = true) :
    decide (s ≥ 0.3) = true := by
  simp only [decide_eq_true_eq] at h ⊢
  linarith

/-- Two Boolean counts with disjoint predicates fit in the length. -/
theorem countP_add_countP_le_length (l : List IndicatorResult)
    (f g : IndicatorResult → Bool) (hfg : ∀ x, f x = true → g x = false) :
    l.countP f + l.countP g ≤ l.length := by
  induction l with
  | nil => simp
  | cons x xs ih =>
    rw [List.countP_cons, List.countP_cons, List.length_cons]
    by_cases hf : f x = true
    · have hg := hfg x hf
      simp [hf, hg]
      omega
    · simp at hf
      by_cases hg : g x = true <;> simp [hf, hg] <;> omega

/-- The standard battery always has 13 indicators (2 RPT + 3 GWT + 4 HOT +
2 PP + 2 AST) — not the 14 the package docstrings advertise: the
documented 14th indicator (AE-1, Active Embodiment) has no evaluator in
the code. -/
theorem runIndicators_length (p : Profile) : (runIndicators p).length = 13 := by
  simp [runIndicators, rptEvaluate, gwtEvaluate, hotEvaluate, ppEvaluate, astEvaluate]

/-! ## Claim theorems -/

/-- C5: determinism — two calls to `assess` with identical profiles and
identical prior history (and, the only remaining run-to-run input, possibly
different wall-clock timestamps) produce identical indicator results,
theory scores, credence, counts, and even proof hash; only the timestamp
field can differ. -/
theorem C5_assess_deterministic (render : ℝ → String) (history : List AssessmentResult)
    (p : Profile) (t1 t2 : String) :
    (assess render history p t1).indicators = (assess render history p t2).indicators
    ∧ (assess render history p t1).theory_scores = (assess render history p t2).theory_scores
    ∧ (assess render history p t1).credence = (assess render history p t2).credence
    ∧ (assess render history p t1).satisfied_count
        = (assess render history p t2).satisfied_count
    ∧ (assess render history p t1).part_count = (assess render history p t2).part_count
    ∧ (assess render history p t1).proof_hash = (assess render history p t2).proof_hash :=
  ⟨rfl, rfl, rfl, rfl, rfl, rfl⟩

/-- C6: on the profile whose architecture is exactly
`{has_recurrent_connections: true, recurrence_depth: 10,
feedback_loop_count: 5}` and all else absent, the RPT-1 indicator produced
by `assess` (the head of the indicator list) has score
`0.4 + min(10/10, 0.3) + min(5/5, 0.3) = 1.0` and is satisfied. -/
theorem C6_rpt1_full_score (render : ℝ → String) (history : List AssessmentResult)
    (t : String) :
    (assess render history c6Profile t).indicators.head? = some (rpt1 c6Profile.architecture)
    ∧ (rpt1 c6Profile.architecture).indicator_id = "RPT-1"
    ∧ (rpt1 c6Profile.architecture).score
        = 0.4 + min ((10 : ℚ) / 10) 0.3 + min ((5 : ℚ) / 5) 0.3
    ∧ (rpt1 c6Profile.architecture).score = 1
    ∧ (rpt1 c6Profile.architecture).satisfied = true := by
  refine ⟨rfl, rfl, ?_, ?_, ?_⟩
  · norm_num [rpt1, c6Profile, min_def]
  · norm_num [rpt1, c6Profile, min_def]
  · norm_num [rpt1, c6Profile, min_def]

/-- C7 (amended: the battery has 13 indicators, not 14): the empty profile
`{}` is assessed without error (`assess` is a total function of the
profile), behaves exactly as the profile in which every absent boolean
defaulted to `false`, every absent plain numeric to `0`, and the two
unfavorable-large defaults to a large latency / `1.0` mean prediction
error; every one of the 13 scores is `0`, hence below the `0.7` satisfied
threshold, and `satisfied_count = 0`. -/
theorem C7_empty_profile_degrades (render : ℝ → String)
    (history : List AssessmentResult) (t : String) :
    runIndicators emptyProfile = runIndicators c7DefaultsProfile
    ∧ (assess render history emptyProfile t).indicators.map (·.score)
        = List.replicate 13 0
    ∧ ((assess render history emptyProfile t).indicators.all
        fun r => decide (r.score < 0.7)) = true
    ∧ (assess render history emptyProfile t).satisfied_count = 0 := by
  refine ⟨?_, ?_, ?_, ?_⟩
  · norm_num [runIndicators, rptEvaluate, gwtEvaluate, hotEvaluate, ppEvaluate,
      astEvaluate, rpt1, rpt2, gwt1, gwt2, gwt3, hot1, hot2, hot3, hot4, pp1, pp2,
      ast1, ast2, emptyProfile, c7DefaultsProfile, latencyLt100, min_def, max_def]
  · show (runIndicators emptyProfile).map (·.score) = List.replicate 13 0
    norm_num [runIndicators, rptEvaluate, gwtEvaluate, hotEvaluate, ppEvaluate,
      astEvaluate, rpt1, rpt2, gwt1, gwt2, gwt3, hot1, hot2, hot3, hot4, pp1, pp2,
      ast1, ast2, emptyProfile, latencyLt100, min_def, max_def, List.replicate]
  · show ((runIndicators emptyProfile).all fun r => decide (r.score < 0.7)) = true
    norm_num [runIndicators, rptEvaluate, gwtEvaluate, hotEvaluate, ppEvaluate,
      astEvaluate, rpt1, rpt2, gwt1, gwt2, gwt3, hot1, hot2, hot3, hot4, pp1, pp2,
      ast1, ast2, emptyProfile, latencyLt100, min_def, max_def, List.all_cons]
  · show satisfiedCount (runIndicators emptyProfile) = 0
    norm_num [satisfiedCount, runIndicators, rptEvaluate, gwtEvaluate, hotEvaluate,
      ppEvaluate, astEvaluate, rpt1, rpt2, gwt1, gwt2, gwt3, hot1, hot2, hot3, hot4,
      pp1, pp2, ast1, ast2, emptyProfile, latencyLt100, min_def, max_def,
      List.countP_cons]

/-- Counterexample to C7 as stated: the assessment of the empty profile does
not contain 14 indicator scores — `total_indicators` is 13 (the battery is
RPT 2 + GWT 3 + HOT 4 + PP 2 + AST 2; the advertised 14th indicator AE-1
has no evaluator). -/
theorem C7_counterexample :
    (assess (fun _ => "") [] emptyProfile "").total_indicators = 13
    ∧ (assess (fun _ => "") [] emptyProfile "").total_indicators ≠ 14 := by
  constructor
  · exact runIndicators_length emptyProfile
  · rw [show (assess (fun _ => "") [] emptyProfile "").total_indicators
      = (runIndicators emptyProfile).length from rfl, runIndicators_length]
    omega

/-- C10: every constructed indicator result satisfies
`satisfied → partial` (both flags derive from the score, with thresholds
0.7 and 0.3), so the partial-but-not-satisfied count is at most
`14 − satisfied_count` and `satisfied_count + partial_count` never exceeds
the total indicator count. -/
theorem C10_flag_thresholds (p : Profile) :
    (∀ r ∈ runIndicators p, r.satisfied = true → r.partFlag = true)
    ∧ partCount (runIndicators p) ≤ 14 - satisfiedCount (runIndicators p)
    ∧ satisfiedCount (runIndicators p) + partCount (runIndicators p)
        ≤ (runIndicators p).length := by
  have hmem : ∀ r ∈ runIndicators p, r.satisfied = true → r.partFlag = true := by
    intro r hr
    simp only [runIndicators, rptEvaluate, gwtEvaluate, hotEvaluate, ppEvaluate,
      astEvaluate, List.mem_append, List.mem_cons, List.not_mem_nil, or_false,
      or_assoc] at hr
    obtain h | h | h | h | h | h | h | h | h | h | h | h | h := hr <;> subst h <;>
      exact decide_ge_07_imp_03 _
  have hsum : satisfiedCount (runIndicators p) + partCount (runIndicators p)
      ≤ (runIndicators p).length := by
    unfold satisfiedCount partCount
    apply countP_add_countP_le_length
    intro x hx
    simp [hx]
  refine ⟨hmem, ?_, hsum⟩
  have hl := runIndicators_length p
  omega

/-- Closed witness for C10 at a concrete input: the RPT-1 result of the C6
profile is satisfied, and by C10 it is then also partially satisfied. -/
theorem C10_witness : (rpt1 c6Profile.architecture).partFlag = true :=
  (C10_flag_thresholds c6Profile).1 (rpt1 c6Profile.architecture)
    (by simp [runIndicators, rptEvaluate])
    (by norm_num [rpt1, c6Profile, min_def])

/-- An association-list lookup misses exactly when the key is absent. -/
theorem lookup_none_iff_not_mem_keys (l : List (String × Profile)) (name : String) :
    l.lookup name = none ↔ name ∉ l.map Prod.fst := by
  induction l with
  | nil => simp [List.lookup]
  | cons kv l ih =>
    obtain ⟨k, v⟩ := kv
    by_cases h : name = k
    · subst h
      simp [List.lookup]
    · have hb : (name == k) = false := beq_eq_false_iff_ne.mpr h
      simp [List.lookup, hb, h, ih]

/-- C8: `run_reference` fails with the Not-Found error, carrying exactly the
list of valid catalog names, iff the requested name is absent from
`REFERENCE_PROFILES`; for a present name it returns the engine's
assessment of the catalog profile, with the runner's engine history grown
by that result.  (The catalog itself is an immutable constant that no
operation writes.) -/
theorem C8_run_reference_contract (render : ℝ → String)
    (history : List AssessmentResult) (name t : String) :
    ((run_reference render history name t
        = Except.error (REFERENCE_PROFILES.map Prod.fst)) ↔
      name ∉ REFERENCE_PROFILES.map Prod.fst)
    ∧ (∀ p, REFERENCE_PROFILES.lookup name = some p →
        run_reference render history name t
          = Except.ok (assess render history p t, assessAppend render history p t)) := by
  unfold run_reference
  cases hl : REFERENCE_PROFILES.lookup name with
  | none =>
    have hnm := (lookup_none_iff_not_mem_keys _ _).mp hl
    exact ⟨by simp [hnm], fun p hp => by cases hp⟩
  | some p =>
    have hnm : name ∈ REFERENCE_PROFILES.map Prod.fst := by
      by_contra hn
      rw [(lookup_none_iff_not_mem_keys _ _).mpr hn] at hl
      cases hl
    refine ⟨by simp [hnm], fun q hq => ?_⟩
    cases hq
    rfl

/-- Closed witness for C8: the catalog name `"Thermostat"` is found and
returns the engine's assessment of the thermostat profile. -/
theorem C8_witness :
    run_reference (fun _ => "") [] "Thermostat" ""
      = Except.ok (assess (fun _ => "") [] thermostatProfile "",
                   assessAppend (fun _ => "") [] thermostatProfile "") :=
  (C8_run_reference_contract (fun _ => "") [] "Thermostat" "").2 thermostatProfile rfl

/-- A Boolean-conditioned weight contributes non-negatively. -/
theorem ite_nonneg_bool (b : Bool) (c : ℚ) (hc : 0 ≤ c) :
    0 ≤ if b then c else 0 := by
  cases b <;> simp [hc]

/-- Every indicator score lies in `[0, 1]` on a profile whose numeric
fields are non-negative (each score is a sum of non-negative terms clamped
above by `min(·, 1)`). -/
theorem scores_in_unit (p : Profile) (h : NonnegProfile p) :
    ∀ r ∈ runIndicators p, 0 ≤ r.score ∧ r.score ≤ 1 := by
  obtain ⟨h1, h2, h3, h4, h5, h6, h7, h8, h9, h10, h11, h12, h13, h14, h15, h16,
    h17, h18, h19, h20⟩ := h
  intro r hr
  simp only [runIndicators, rptEvaluate, gwtEvaluate, hotEvaluate, ppEvaluate,
    astEvaluate, List.mem_append, List.mem_cons, List.not_mem_nil, or_false,
    or_assoc] at hr
  obtain hc | hc | hc | hc | hc | hc | hc | hc | hc | hc | hc | hc | hc := hr <;>
      subst hc <;>
    simp only [rpt1, rpt2, gwt1, gwt2, gwt3, hot1, hot2, hot3, hot4, pp1, pp2,
      ast1, ast2] <;>
    refine ⟨le_min ?_ (by norm_num), min_le_right _ _⟩
  · exact add_nonneg (add_nonneg (ite_nonneg_bool _ _ (by norm_num))
      (le_min (div_nonneg h1 (by norm_num)) (by norm_num)))
      (le_min (div_nonneg h2 (by norm_num)) (by norm_num))
  · exact add_nonneg (add_nonneg (mul_nonneg h3 (by norm_num))
      (ite_nonneg_bool _ _ (by norm_num)))
      (le_min (div_nonneg h4 (by norm_num)) (by norm_num))
  · exact add_nonneg (add_nonneg (le_min (div_nonneg h5 (by norm_num)) (by norm_num))
      (mul_nonneg h6 (by norm_num))) (ite_nonneg_bool _ _ (by norm_num))
  · exact add_nonneg (add_nonneg (mul_nonneg h7 (by norm_num))
      (ite_nonneg_bool _ _ (by norm_num))) (ite_nonneg_bool _ _ (by norm_num))
  · exact add_nonneg (add_nonneg (mul_nonneg h8 (by norm_num))
      (ite_nonneg_bool _ _ (by norm_num))) (ite_nonneg_bool _ _ (by norm_num))
  · exact add_nonneg (add_nonneg (ite_nonneg_bool _ _ (by norm_num))
      (le_min (div_nonneg h9 (by norm_num)) (by norm_num)))
      (ite_nonneg_bool _ _ (by norm_num))
  · exact add_nonneg (add_nonneg (mul_nonneg h13 (by norm_num))
      (mul_nonneg h14 (by norm_num))) (mul_nonneg h15 (by norm_num))
  · exact add_nonneg (add_nonneg (mul_nonneg h16 (by norm_num))
      (ite_nonneg_bool _ _ (by norm_num))) (ite_nonneg_bool _ _ (by norm_num))
  · exact add_nonneg (add_nonneg (mul_nonneg h10 (by norm_num))
      (ite_nonneg_bool _ _ (by norm_num))) (mul_nonneg h11 (by norm_num))
  · exact add_nonneg (add_nonneg (le_min (div_nonneg h12 (by norm_num)) (by norm_num))
      (ite_nonneg_bool _ _ (by norm_num))) (ite_nonneg_bool _ _ (by norm_num))
  · exact add_nonneg (add_nonneg (ite_nonneg_bool _ _ (by norm_num))
      (mul_nonneg (le_max_left _ _) (by norm_num))) (mul_nonneg h20 (by norm_num))
  · exact add_nonneg (add_nonneg (ite_nonneg_bool _ _ (by norm_num))
      (ite_nonneg_bool _ _ (by norm_num))) (mul_nonneg h18 (by norm_num))
  · exact add_nonneg (add_nonneg (mul_nonneg h17 (by norm_num))
      (ite_nonneg_bool _ _ (by norm_num))) (mul_nonneg h19 (by norm_num))

/-- A theory's mean score lies in `[0, 1]` when every score does. -/
theorem theoryScore_bounds (inds : List IndicatorResult)
    (h : ∀ r ∈ inds, 0 ≤ r.score ∧ r.score ≤ 1) (t : String) :
    0 ≤ theoryScore inds t ∧ theoryScore inds t ≤ 1 := by
  have hmem : ∀ r ∈ inds.filter (·.theory = t), 0 ≤ r.score ∧ r.score ≤ 1 :=
    fun r hr => h r (List.mem_of_mem_filter hr)
  by_cases hlen : (inds.filter (·.theory = t)).length = 0
  · constructor <;> simp [theoryScore, hlen]
  · have hpos : (0 : ℚ) < (inds.filter (·.theory = t)).length := by
      exact_mod_cast Nat.pos_of_ne_zero hlen
    have hsum0 : 0 ≤ ((inds.filter (·.theory = t)).map (·.score)).sum := by
      apply List.sum_nonneg
      intro x hx
      obtain ⟨r, hr, rfl⟩ := List.mem_map.mp hx
      exact (hmem r hr).1
    have hsum1 : ((inds.filter (·.theory = t)).map (·.score)).sum
        ≤ ((inds.filter (·.theory = t)).length : ℚ) := by
      have hb := List.sum_le_card_nsmul ((inds.filter (·.theory = t)).map (·.score)) 1 (by
        intro x hx
        obtain ⟨r, hr, rfl⟩ := List.mem_map.mp hx
        exact (hmem r hr).2)
      simpa using hb
    constructor
    · simp only [theoryScore]
      rw [if_pos hlen]
      exact div_nonneg hsum0 (le_of_lt hpos)
    · simp only [theoryScore]
      rw [if_pos hlen]
      rw [div_le_one hpos]
      exact hsum1

/-- Every entry of `theory_scores` lies in `[0, 1]` on a profile whose
numeric fields are non-negative. -/
theorem theoryScores_bounds (p : Profile) (h : NonnegProfile p) :
    ∀ q ∈ theoryScores (runIndicators p), 0 ≤ q.2 ∧ q.2 ≤ 1 := by
  intro q hq
  simp only [theoryScores, List.mem_map] at hq
  obtain ⟨t, _, rfl⟩ := hq
  exact theoryScore_bounds _ (scores_in_unit p h) t

/-- Every theory weight in the aggregator's table is positive (including
the `0.1` default). -/
theorem theoryWeight_pos (t : String) : 0 < theoryWeight t := by
  unfold theoryWeight
  split_ifs <;> norm_num

/-- The full-theory confirmation bonus is never negative. -/
theorem theoryBonus_nonneg (ts : List (String × ℚ)) : 0 ≤ theoryBonus ts := by
  unfold theoryBonus
  suffices hgen : ∀ acc : ℚ, 0 ≤ acc →
      0 ≤ ts.foldl
        (fun acc p => if p.2 ≥ 0.7 then acc + 0.03 * theoryWeight p.1 else acc) acc from
    hgen 0 le_rfl
  induction ts with
  | nil => intro acc hacc; simpa
  | cons x xs ih =>
    intro acc hacc
    simp only [List.foldl_cons]
    apply ih
    split_ifs
    · have := theoryWeight_pos x.1
      nlinarith
    · exact hacc

/-- The aggregated credence always lies in `[0, 0.99]`, for any indicator
list and any theory-score map. -/
theorem aggregate_bounds (inds : List IndicatorResult) (ts : List (String × ℚ)) :
    0 ≤ aggregate inds ts ∧ aggregate inds ts ≤ 0.99 := by
  unfold aggregate
  constructor
  · refine le_min (by norm_num) (add_nonneg (div_nonneg ?_ ?_) ?_)
    · have hp : (0 : ℝ) < (PRIOR_CREDENCE : ℝ) / (1 - (PRIOR_CREDENCE : ℝ)) := by
        rw [PRIOR_CREDENCE]
        norm_num
      exact le_of_lt (mul_pos hp (Real.exp_pos _))
    · have hp : (0 : ℝ) < (PRIOR_CREDENCE : ℝ) / (1 - (PRIOR_CREDENCE : ℝ)) := by
        rw [PRIOR_CREDENCE]
        norm_num
      nlinarith [Real.exp_pos (logLikelihoodRatioSum inds)]
    · exact_mod_cast theoryBonus_nonneg ts
  · exact min_le_left _ _

/-- Counterexample to C2 as stated: with a negative numeric field the RPT-2
score produced by the evaluators is `−0.4`, outside `[0, 1]` — scores are
clamped above by `min(·, 1)` but have no lower clamp. -/
theorem C2_counterexample :
    (rpt2 c2CexProfile.architecture) ∈ runIndicators c2CexProfile
    ∧ (rpt2 c2CexProfile.architecture).score = -0.4
    ∧ ¬(0 ≤ (rpt2 c2CexProfile.architecture).score) := by
  refine ⟨by simp [runIndicators, rptEvaluate], ?_, ?_⟩
  · norm_num [rpt2, c2CexProfile, min_def]
  · norm_num [rpt2, c2CexProfile, min_def]

/-- C2 (amended: for profiles whose present numeric fields are
non-negative — the code has no lower clamp, so e.g. a negative
`feedback_connection_richness` escapes `[0, 1]`): when the profile's
numeric fields are non-negative, every indicator score and every theory
score of an assessment lies in `[0, 1]`; the credence lies in `[0, 0.99]`
for every profile, unconditionally. -/
theorem C2_output_ranges (render : ℝ → String) (history : List AssessmentResult)
    (p : Profile) (t : String) :
    (NonnegProfile p →
      (∀ r ∈ (assess render history p t).indicators, 0 ≤ r.score ∧ r.score ≤ 1)
      ∧ (∀ q ∈ (assess render history p t).theory_scores, 0 ≤ q.2 ∧ q.2 ≤ 1))
    ∧ 0 ≤ (assess render history p t).credence
    ∧ (assess render history p t).credence ≤ 0.99 :=
  ⟨fun h => ⟨scores_in_unit p h, theoryScores_bounds p h⟩,
   (aggregate_bounds (runIndicators p) (theoryScores (runIndicators p))).1,
   (aggregate_bounds (runIndicators p) (theoryScores (runIndicators p))).2⟩

/-- Closed witness for C2 at a concrete input: the empty profile has
non-negative numeric fields, its indicator scores lie in `[0, 1]`, and its
assessed credence is at most 0.99. -/
theorem C2_witness :
    NonnegProfile emptyProfile
    ∧ (∀ r ∈ (assess (fun _ => "") [] emptyProfile "").indicators,
        0 ≤ r.score ∧ r.score ≤ 1)
    ∧ (assess (fun _ => "") [] emptyProfile "").credence ≤ 0.99 :=
  ⟨by norm_num [NonnegProfile, emptyProfile],
   ((C2_output_ranges (fun _ => "") [] emptyProfile "").1
     (by norm_num [NonnegProfile, emptyProfile])).1,
   (C2_output_ranges (fun _ => "") [] emptyProfile "").2.2⟩

/-! ## Monotonicity (claim C3) -/

/-- A Boolean-conditioned weight is monotone when the condition only turns
on. -/
theorem ite_mono_bool (bp bq : Bool) (c : ℚ) (hc : 0 ≤ c)
    (h : bp = true → bq = true) :
    (if bp then c else 0) ≤ (if bq then c else 0) := by
  cases bp
  · cases bq <;> simp [hc]
  · simp [h rfl]

/-- Lowering the effective latency preserves the `< 100` bonus test. -/
theorem latencyLt100_mono (x y : Option ℚ)
    (h : latencyVal y ≤ latencyVal x) (hx : latencyLt100 x = true) :
    latencyLt100 y = true := by
  cases x with
  | none => simp [latencyLt100] at hx
  | some a =>
    cases y with
    | none =>
      exact absurd (top_le_iff.mp h) (by simp [latencyVal])
    | some b =>
      simp only [latencyVal, WithTop.coe_le_coe] at h
      simp only [latencyLt100, decide_eq_true_eq] at hx ⊢
      linarith

/-- RPT-1 is monotone in the profile order. -/
theorem rpt1_mono (p q : Profile) (h : ProfileLE p q) :
    (rpt1 p.architecture).score ≤ (rpt1 q.architecture).score := by
  simp only [rpt1]
  refine min_le_min (add_le_add (add_le_add ?_ ?_) ?_) le_rfl
  · exact ite_mono_bool _ _ _ (by norm_num) h.rec_conn
  · exact min_le_min ((div_le_div_iff_of_pos_right (by norm_num)).mpr h.rec_depth) le_rfl
  · exact min_le_min ((div_le_div_iff_of_pos_right (by norm_num)).mpr h.fb_loops) le_rfl

/-- RPT-2 is monotone in the profile order. -/
theorem rpt2_mono (p q : Profile) (h : ProfileLE p q) :
    (rpt2 p.architecture).score ≤ (rpt2 q.architecture).score := by
  simp only [rpt2]
  refine min_le_min (add_le_add (add_le_add ?_ ?_) ?_) le_rfl
  · exact mul_le_mul_of_nonneg_right h.richness (by norm_num)
  · exact ite_mono_bool _ _ _ (by norm_num) h.bidir
  · exact min_le_min ((div_le_div_iff_of_pos_right (by norm_num)).mpr h.cross_layer) le_rfl

/-- GWT-1 is monotone in the profile order. -/
theorem gwt1_mono (p q : Profile) (h : ProfileLE p q) :
    (gwt1 p.architecture).score ≤ (gwt1 q.architecture).score := by
  simp only [gwt1]
  refine min_le_min (add_le_add (add_le_add ?_ ?_) ?_) le_rfl
  · exact min_le_min ((div_le_div_iff_of_pos_right (by norm_num)).mpr h.modules) le_rfl
  · exact mul_le_mul_of_nonneg_right h.mod_spec (by norm_num)
  · exact ite_mono_bool _ _ _ (by norm_num) h.workspace

/-- GWT-2 is monotone in the profile order (antitone in the raw latency). -/
theorem gwt2_mono (p q : Profile) (h : ProfileLE p q) :
    (gwt2 p.architecture p.behaviors).score ≤ (gwt2 q.architecture q.behaviors).score := by
  simp only [gwt2]
  refine min_le_min (add_le_add (add_le_add ?_ ?_) ?_) le_rfl
  · exact mul_le_mul_of_nonneg_right h.broadcast (by norm_num)
  · exact ite_mono_bool _ _ _ (by norm_num) h.ignition
  · exact ite_mono_bool _ _ _ (by norm_num) (latencyLt100_mono _ _ h.latency)

/-- GWT-3 is monotone in the profile order. -/
theorem gwt3_mono (p q : Profile) (h : ProfileLE p q) :
    (gwt3 p.architecture).score ≤ (gwt3 q.architecture).score := by
  simp only [gwt3]
  refine min_le_min (add_le_add (add_le_add ?_ ?_) ?_) le_rfl
  · exact mul_le_mul_of_nonneg_right h.rout_flex (by norm_num)
  · exact ite_mono_bool _ _ _ (by norm_num) h.dyn_routing
  · exact ite_mono_bool _ _ _ (by norm_num) h.attn_mech

/-- HOT-1 is monotone in the profile order. -/
theorem hot1_mono (p q : Profile) (h : ProfileLE p q) :
    (hot1 p.architecture p.internal_states).score
      ≤ (hot1 q.architecture q.internal_states).score := by
  simp only [hot1]
  refine min_le_min (add_le_add (add_le_add ?_ ?_) ?_) le_rfl
  · exact ite_mono_bool _ _ _ (by norm_num) h.meta_rep
  · exact min_le_min ((div_le_div_iff_of_pos_right (by norm_num)).mpr h.meta_depth) le_rfl
  · exact ite_mono_bool _ _ _ (by norm_num) h.self_model

/-- HOT-2 is monotone in the profile order. -/
theorem hot2_mono (p q : Profile) (h : ProfileLE p q) :
    (hot2 p.behaviors).score ≤ (hot2 q.behaviors).score := by
  simp only [hot2]
  refine min_le_min (add_le_add (add_le_add ?_ ?_) ?_) le_rfl
  · exact mul_le_mul_of_nonneg_right h.uncert (by norm_num)
  · exact mul_le_mul_of_nonneg_right h.conf_cal (by norm_num)
  · exact mul_le_mul_of_nonneg_right h.err_det (by norm_num)

/-- HOT-3 is monotone in the profile order. -/
theorem hot3_mono (p q : Profile) (h : ProfileLE p q) :
    (hot3 p.behaviors).score ≤ (hot3 q.behaviors).score := by
  simp only [hot3]
  refine min_le_min (add_le_add (add_le_add ?_ ?_) ?_) le_rfl
  · exact mul_le_mul_of_nonneg_right h.agency (by norm_num)
  · exact ite_mono_bool _ _ _ (by norm_num) h.sys_pref
  · exact ite_mono_bool _ _ _ (by norm_num) h.goal_dir

/-- HOT-4 is monotone in the profile order. -/
theorem hot4_mono (p q : Profile) (h : ProfileLE p q) :
    (hot4 p.architecture).score ≤ (hot4 q.architecture).score := by
  simp only [hot4]
  refine min_le_min (add_le_add (add_le_add ?_ ?_) ?_) le_rfl
  · exact mul_le_mul_of_nonneg_right h.smooth (by norm_num)
  · exact ite_mono_bool _ _ _ (by norm_num) h.cont_rep
  · exact mul_le_mul_of_nonneg_right h.interp (by norm_num)

/-- PP-1 is monotone in the profile order. -/
theorem pp1_mono (p q : Profile) (h : ProfileLE p q) :
    (pp1 p.architecture).score ≤ (pp1 q.architecture).score := by
  simp only [pp1]
  refine min_le_min (add_le_add (add_le_add ?_ ?_) ?_) le_rfl
  · exact min_le_min ((div_le_div_iff_of_pos_right (by norm_num)).mpr h.hier_depth) le_rfl
  · exact ite_mono_bool _ _ _ (by norm_num) h.top_down
  · exact ite_mono_bool _ _ _ (by norm_num) h.gen_model

/-- PP-2 is monotone in the profile order (antitone in the raw mean
prediction error). -/
theorem pp2_mono (p q : Profile) (h : ProfileLE p q) :
    (pp2 p.architecture p.internal_states).score
      ≤ (pp2 q.architecture q.internal_states).score := by
  simp only [pp2]
  refine min_le_min (add_le_add (add_le_add ?_ ?_) ?_) le_rfl
  · exact ite_mono_bool _ _ _ (by norm_num) h.pe_min
  · refine mul_le_mul_of_nonneg_right (max_le_max le_rfl ?_) (by norm_num)
    have := h.mean_pe
    linarith
  · exact mul_le_mul_of_nonneg_right h.pe_conv (by norm_num)

/-- AST-1 is monotone in the profile order. -/
theorem ast1_mono (p q : Profile) (h : ProfileLE p q) :
    (ast1 p.architecture p.internal_states).score
      ≤ (ast1 q.architecture q.internal_states).score := by
  simp only [ast1]
  refine min_le_min (add_le_add (add_le_add ?_ ?_) ?_) le_rfl
  · exact ite_mono_bool _ _ _ (by norm_num) h.attn_schema
  · exact ite_mono_bool _ _ _ (by norm_num) h.report_attn
  · exact mul_le_mul_of_nonneg_right h.attn_acc (by norm_num)

/-- AST-2 is monotone in the profile order. -/
theorem ast2_mono (p q : Profile) (h : ProfileLE p q) :
    (ast2 p.behaviors p.internal_states).score
      ≤ (ast2 q.behaviors q.internal_states).score := by
  simp only [ast2]
  refine min_le_min (add_le_add (add_le_add ?_ ?_) ?_) le_rfl
  · exact mul_le_mul_of_nonneg_right h.attn_guided (by norm_num)
  · exact ite_mono_bool _ _ _ (by norm_num) h.dyn_attn
  · exact mul_le_mul_of_nonneg_right h.priority_w (by norm_num)

/-- C3 (amended): every indicator's score is monotone non-decreasing under
the pointwise profile order in which each boolean or plain numeric raw
field may only become more favorable — rising — while the two
inverted-polarity raw fields, GWT-2's `broadcast_latency_ms` and PP-2's
`mean_prediction_error`, may only fall.  Raising a single ordinary raw
field (all others fixed) is a special case; for the two inverted fields it
is lowering the raw value that never decreases the score. -/
theorem C3_indicator_monotonicity (p q : Profile) (h : ProfileLE p q) :
    List.Forall₂ (fun a b => a.score ≤ b.score) (runIndicators p) (runIndicators q) := by
  simp only [runIndicators, rptEvaluate, gwtEvaluate, hotEvaluate, ppEvaluate,
    astEvaluate, List.cons_append, List.nil_append]
  exact .cons (rpt1_mono p q h) (.cons (rpt2_mono p q h) (.cons (gwt1_mono p q h)
    (.cons (gwt2_mono p q h) (.cons (gwt3_mono p q h) (.cons (hot1_mono p q h)
    (.cons (hot2_mono p q h) (.cons (hot3_mono p q h) (.cons (hot4_mono p q h)
    (.cons (pp1_mono p q h) (.cons (pp2_mono p q h) (.cons (ast1_mono p q h)
    (.cons (ast2_mono p q h) .nil))))))))))))

/-- Closed witness for C3 at concrete inputs: the empty profile is pointwise
below the C6 profile, so every indicator score on the former is bounded by
the corresponding one on the latter. -/
theorem C3_witness :
    List.Forall₂ (fun a b => a.score ≤ b.score)
      (runIndicators emptyProfile) (runIndicators c6Profile) :=
  C3_indicator_monotonicity emptyProfile c6Profile
    (by constructor <;> norm_num [emptyProfile, c6Profile, latencyVal])

/-! ## Proof-hash chain (claim C4) -/

/-- The SHA-256 digest always has 32 bytes. -/
theorem sha256_length (msg : List ℕ) : (sha256 msg).length = 32 := by
  simp [sha256, wordBytes]

/-- Hex encoding doubles the length. -/
theorem hex_flatMap_length (l : List ℕ) :
    (l.flatMap fun b => [hexChar (b / 16), hexChar (b % 16)]).length = 2 * l.length := by
  induction l with
  | nil => rfl
  | cons b bs ih =>
    simp only [List.flatMap_cons, List.length_append, List.length_cons, ih,
      List.length_nil, List.length_cons]
    omega

/-- The serialized proof-record keys are in strictly increasing
lexicographic order. -/
theorem proofDataKeys_sorted : proofDataKeys.Chain' (· < ·) := by
  simp only [proofDataKeys, List.chain'_cons, List.chain'_singleton, and_true]
  refine ⟨?_, ?_, ?_, ?_, ?_⟩ <;> exact String.lt_iff_toList_lt.mpr (by decide)

/-- Sorting the five theory entries by key yields AST, GWT, HOT, PP, RPT —
what `sort_keys=True` does to the `theories` sub-dict. -/
theorem sortFields_theories (v1 v2 v3 v4 v5 : String) :
    (sortFields [("RPT", v1), ("GWT", v2), ("HOT", v3), ("PP", v4), ("AST", v5)]).map
      Prod.fst = ["AST", "GWT", "HOT", "PP", "RPT"] := by
  have h1 : ¬(("PP" : String) < "AST") := by
    rw [String.lt_iff_toList_lt]
    decide
  have h2 : (("HOT" : String) < "PP") := by
    rw [String.lt_iff_toList_lt]
    decide
  have h3 : ¬(("GWT" : String) < "AST") := by
    rw [String.lt_iff_toList_lt]
    decide
  have h4 : (("GWT" : String) < "HOT") := by
    rw [String.lt_iff_toList_lt]
    decide
  have h5 : ¬(("RPT" : String) < "AST") := by
    rw [String.lt_iff_toList_lt]
    decide
  have h6 : ¬(("RPT" : String) < "GWT") := by
    rw [String.lt_iff_toList_lt]
    decide
  have h7 : ¬(("RPT" : String) < "HOT") := by
    rw [String.lt_iff_toList_lt]
    decide
  have h8 : ¬(("RPT" : String) < "PP") := by
    rw [String.lt_iff_toList_lt]
    decide
  simp [sortFields, insortField, h1, h2, h3, h4, h5, h6, h7, h8]

/-- C4: chain integrity of the proof hash.  The proof hash of every
assessment is the SHA-256-based hash of the serialized record built with
the previous-hash field: `"GENESIS"` on an empty history (the first call),
and the proof hash of the immediately preceding history entry otherwise —
in particular, after appending one assessment, the next record chains to
exactly that assessment's hash.  The visible proof string is the literal
prefix `"sha256:"` followed by the first 32 hex characters of the digest
of the encoded record (39 characters in all), and the record is serialized
with lexicographically sorted keys, recursively including the `theories`
sub-record. -/
theorem C4_proof_hash_chain (render : ℝ → String) (history : List AssessmentResult)
    (p : Profile) (t : String) :
    (assess render history p t).proof_hash
      = mkProofHash (serializeProofData render (p.metadata.name.getD "unknown")
          (aggregate (runIndicators p) (theoryScores (runIndicators p)))
          (satisfiedCount (runIndicators p)) (partCount (runIndicators p))
          (theoryScores (runIndicators p)) (prevHash history))
    ∧ prevHash [] = "GENESIS"
    ∧ (∀ (hs : List AssessmentResult) (a : AssessmentResult),
        prevHash (hs ++ [a]) = a.proof_hash)
    ∧ prevHash (assessAppend render history p t) = (assess render history p t).proof_hash
    ∧ (∀ s : String, mkProofHash s
        = "sha256:" ++ String.mk ((hexDigest (sha256 (strBytes s))).toList.take 32))
    ∧ (assess render history p t).proof_hash.length = 39
    ∧ proofDataKeys.Chain' (· < ·)
    ∧ (sortFields ((theoryScores (runIndicators p)).map
        fun q => (q.1, render ((q.2 : ℚ) : ℝ)))).map Prod.fst
        = ["AST", "GWT", "HOT", "PP", "RPT"] := by
  refine ⟨rfl, rfl, ?_, ?_, fun s => rfl, ?_, proofDataKeys_sorted, ?_⟩
  · intro hs a
    simp [prevHash, List.getLast?_concat]
  · simp [assessAppend, prevHash, List.getLast?_concat]
  · show (mkProofHash _).length = 39
    unfold mkProofHash
    rw [String.length_append]
    have hlen : (((sha256 (strBytes (serializeProofData render
        (p.metadata.name.getD "unknown")
        (aggregate (runIndicators p) (theoryScores (runIndicators p)))
        (satisfiedCount (runIndicators p)) (partCount (runIndicators p))
        (theoryScores (runIndicators p)) (prevHash history)))).flatMap
          fun b => [hexChar (b / 16), hexChar (b % 16)]).take 32).length = 32 := by
      rw [List.length_take, hex_flatMap_length, sha256_length]
      rfl
    show 7 + (String.mk _).length = 39
    rw [show ∀ l : List Char, (String.mk l).length = l.length from fun _ => rfl, hlen]
  · simp only [theoryScores, List.map_cons, List.map_nil]
    exact sortFields_theories _ _ _ _ _

/-! ## Sensitivity analysis (claim C9) -/

/-- The not-satisfied likelihood ratio is the smallest of the three. -/
theorem likelihoodRatio_not_le (s pf : Bool) :
    likelihoodRatio false false ≤ likelihoodRatio s pf := by
  cases s <;> cases pf <;>
    norm_num [likelihoodRatio, LIKELIHOOD_SATISFIED, LIKELIHOOD_PARTIAL,
      LIKELIHOOD_NOT_SATISFIED]

/-- Every likelihood ratio is positive. -/
theorem likelihoodRatio_pos (s pf : Bool) : 0 < likelihoodRatio s pf := by
  cases s <;> cases pf <;>
    norm_num [likelihoodRatio, LIKELIHOOD_SATISFIED, LIKELIHOOD_PARTIAL,
      LIKELIHOOD_NOT_SATISFIED]

/-- Suppressing an indicator can only lower its summand: the mock keeps the
theory (hence the weight) and forces the smallest likelihood ratio. -/
theorem llrTerm_mock_le (i : IndicatorResult) : llrTerm (mockIndicator i) ≤ llrTerm i := by
  unfold llrTerm mockIndicator
  apply mul_le_mul_of_nonneg_left _ (by exact_mod_cast le_of_lt (theoryWeight_pos i.theory))
  apply Real.log_le_log
  · have h := likelihoodRatio_pos false false
    have : (0 : ℝ) < (likelihoodRatio false false : ℝ) := by exact_mod_cast h
    norm_num
    linarith
  · have h := likelihoodRatio_not_le i.satisfied i.partFlag
    have : ((likelihoodRatio false false : ℚ) : ℝ)
        ≤ ((likelihoodRatio i.satisfied i.partFlag : ℚ) : ℝ) := by exact_mod_cast h
    linarith

/-- A fold that only adds summands equals the sum of the mapped list. -/
theorem foldl_add_map (f : IndicatorResult → ℝ) (l : List IndicatorResult) :
    ∀ c : ℝ, l.foldl (fun acc x => acc + f x) c = c + (l.map f).sum := by
  induction l with
  | nil => intro c; simp
  | cons x xs ih =>
    intro c
    simp only [List.foldl_cons, List.map_cons, List.sum_cons, ih]
    ring

/-- Replacing one element with one of smaller value can only lower the
mapped sum. -/
theorem sum_map_set_le (f : IndicatorResult → ℝ) :
    ∀ (l : List IndicatorResult) (i : ℕ) (x : IndicatorResult),
      (∀ hi : i < l.length, f x ≤ f (l.get ⟨i, hi⟩)) →
      ((l.set i x).map f).sum ≤ (l.map f).sum := by
  intro l
  induction l with
  | nil =>
    intro i x _
    simp
  | cons a l ih =>
    intro i x h
    cases i with
    | zero =>
      simp only [List.set_cons_zero, List.map_cons, List.sum_cons]
      have ha : f x ≤ f a := h (by simp)
      linarith
    | succ n =>
      simp only [List.set_cons_succ, List.map_cons, List.sum_cons]
      have hrec := ih n x (fun hi => by
        have := h (by simpa using Nat.succ_lt_succ hi)
        simpa using this)
      linarith

/-- The odds-to-probability map `x ↦ x / (1 + x)` is monotone on `[0, ∞)`. -/
theorem odds_to_prob_mono (x y : ℝ) (hx : 0 ≤ x) (hxy : x ≤ y) :
    x / (1 + x) ≤ y / (1 + y) := by
  have h1 : (0 : ℝ) < 1 + x := by linarith
  have h2 : (0 : ℝ) < 1 + y := by linarith
  rw [div_le_div_iff₀ h1 h2]
  nlinarith

/-- Suppressing one indicator (with the original, un-recomputed theory
scores) never raises the aggregate credence. -/
theorem aggregate_set_mock_le (inds : List IndicatorResult) (ts : List (String × ℚ))
    (i : ℕ) (ind : IndicatorResult) (hget : inds.get? i = some ind) :
    aggregate (inds.set i (mockIndicator ind)) ts ≤ aggregate inds ts := by
  have hi : i < inds.length := by
    by_contra hn
    rw [List.get?_eq_none.mpr (le_of_not_lt hn)] at hget
    cases hget
  have hieq : inds.get ⟨i, hi⟩ = ind := by
    have := List.get?_eq_get hi
    rw [this] at hget
    exact Option.some_injective _ hget
  have hsum : logLikelihoodRatioSum (inds.set i (mockIndicator ind))
      ≤ logLikelihoodRatioSum inds := by
    unfold logLikelihoodRatioSum
    rw [show (fun (acc : ℝ) (i : IndicatorResult) => acc + (theoryWeight i.theory : ℝ)
        * Real.log ((likelihoodRatio i.satisfied i.partFlag : ℝ) + 1e-10))
      = (fun acc x => acc + llrTerm x) from rfl]
    rw [foldl_add_map, foldl_add_map]
    have := sum_map_set_le llrTerm inds i (mockIndicator ind) (fun hi2 => by
      rw [show inds.get ⟨i, hi2⟩ = ind from hieq]
      exact llrTerm_mock_le ind)
    linarith
  unfold aggregate
  apply min_le_min le_rfl
  apply add_le_add_right
  have hprior : (0 : ℝ) < (PRIOR_CREDENCE : ℝ) / (1 - (PRIOR_CREDENCE : ℝ)) := by
    rw [PRIOR_CREDENCE]
    norm_num
  have hodds : (PRIOR_CREDENCE : ℝ) / (1 - (PRIOR_CREDENCE : ℝ))
        * Real.exp (logLikelihoodRatioSum (inds.set i (mockIndicator ind)))
      ≤ (PRIOR_CREDENCE : ℝ) / (1 - (PRIOR_CREDENCE : ℝ))
        * Real.exp (logLikelihoodRatioSum inds) :=
    mul_le_mul_of_nonneg_left (Real.exp_le_exp.mpr hsum) (le_of_lt hprior)
  exact odds_to_prob_mono _ _
    (le_of_lt (mul_pos hprior (Real.exp_pos _))) hodds

/-- C9: every contribution reported by `sensitivity_analysis` is
non-negative — the counterfactual run reuses the original theory scores,
so the bonus term is unchanged and only the weighted log-likelihood-ratio
sum can move, and it can only fall. -/
theorem C9_sensitivity_nonneg (inds : List IndicatorResult) (ts : List (String × ℚ))
    (c : String × ℝ) (hc : c ∈ sensitivity_analysis inds ts) : 0 ≤ c.2 := by
  unfold sensitivity_analysis at hc
  simp only [List.mem_map] at hc
  obtain ⟨⟨i, ind⟩, hmem, rfl⟩ := hc
  have hget : inds.get? i = some ind := by
    rw [List.get?_eq_getElem?]
    exact List.mk_mem_enum_iff_getElem?.mp hmem
  have hle := aggregate_set_mock_le inds ts i ind hget
  simp only
  linarith

/-- Closed witness for C9 at a concrete input: the single contribution of a
one-indicator list is non-negative. -/
theorem C9_witness :
    0 ≤ (aggregate [rpt1 c6Profile.architecture] []
      - aggregate ([rpt1 c6Profile.architecture].set 0
          (mockIndicator (rpt1 c6Profile.architecture))) []) :=
  C9_sensitivity_nonneg [rpt1 c6Profile.architecture] []
    ((rpt1 c6Profile.architecture).indicator_id,
      aggregate [rpt1 c6Profile.architecture] []
        - aggregate ([rpt1 c6Profile.architecture].set 0
            (mockIndicator (rpt1 c6Profile.architecture))) [])
    (by simp [sensitivity_analysis, List.enum])

/-! ## The aggregate against the spec's reference definition (claim C1) -/

/-- The spec's weight table coincides with the code's. -/
theorem specTheoryWeight_eq (t : String) : specTheoryWeight t = theoryWeight t := by
  unfold specTheoryWeight theoryWeight
  split_ifs <;> norm_num

/-- The spec's likelihood-ratio constants coincide with the code's. -/
theorem specLikelihoodRatio_eq (s pf : Bool) :
    specLikelihoodRatio s pf = likelihoodRatio s pf := by
  cases s <;> cases pf <;>
    norm_num [specLikelihoodRatio, likelihoodRatio, LIKELIHOOD_SATISFIED,
      LIKELIHOOD_PARTIAL, LIKELIHOOD_NOT_SATISFIED]

/-- The bonus fold equals the filtered-map sum. -/
theorem theoryBonus_foldl_eq (ts : List (String × ℚ)) :
    ∀ acc : ℚ,
      ts.foldl (fun acc p => if p.2 ≥ 0.7 then acc + 0.03 * theoryWeight p.1 else acc) acc
        = acc + ((ts.filter fun q => decide (q.2 ≥ 0.7)).map
            fun q => 0.03 * theoryWeight q.1).sum := by
  induction ts with
  | nil => intro acc; simp
  | cons x xs ih =>
    intro acc
    by_cases hx : x.2 ≥ 0.7
    · rw [List.foldl_cons, if_pos hx, ih, List.filter_cons_of_pos (by simpa using hx),
        List.map_cons, List.sum_cons]
      ring
    · rw [List.foldl_cons, if_neg hx, ih, List.filter_cons_of_neg (by simpa using hx)]

/-- C1 (amended: the logarithm is taken of the likelihood ratio plus the
`1e-10` guard the source adds): `aggregate` coincides with the spec's
reference formula so amended, for every indicator list and theory-score
map. -/
theorem C1_aggregate_eq_amended_spec (inds : List IndicatorResult)
    (ts : List (String × ℚ)) :
    aggregate inds ts = aggregateSpecAmended inds ts := by
  unfold aggregate aggregateSpecAmended
  have hsum : logLikelihoodRatioSum inds
      = (inds.map fun i => (specTheoryWeight i.theory : ℝ)
          * Real.log ((specLikelihoodRatio i.satisfied i.partFlag : ℝ) + 1e-10)).sum := by
    unfold logLikelihoodRatioSum
    rw [show (fun (acc : ℝ) (i : IndicatorResult) => acc + (theoryWeight i.theory : ℝ)
        * Real.log ((likelihoodRatio i.satisfied i.partFlag : ℝ) + 1e-10))
      = (fun acc x => acc + llrTerm x) from rfl, foldl_add_map]
    rw [zero_add]
    apply congrArg
    apply List.map_congr_left
    intro i _
    rw [llrTerm, specTheoryWeight_eq, specLikelihoodRatio_eq]
  have hcast : ∀ l : List (String × ℚ),
      (((l.map fun q => (0.03 : ℚ) * theoryWeight q.1).sum : ℚ) : ℝ)
        = (l.map fun q => 0.03 * (specTheoryWeight q.1 : ℝ)).sum := by
    intro l
    induction l with
    | nil => simp
    | cons x xs ih =>
      simp only [List.map_cons, List.sum_cons, Rat.cast_add, Rat.cast_mul, ih]
      rw [specTheoryWeight_eq]
      norm_num
  have hbonus : ((theoryBonus ts : ℚ) : ℝ)
      = ((ts.filter fun q => decide (q.2 ≥ 0.7)).map
          fun q => 0.03 * (specTheoryWeight q.1 : ℝ)).sum := by
    unfold theoryBonus
    rw [theoryBonus_foldl_eq, zero_add]
    exact hcast _
  rw [hsum, hbonus, min_comm]
  have hp : ((PRIOR_CREDENCE : ℚ) : ℝ) = 0.05 := by
    norm_num [PRIOR_CREDENCE]
  rw [hp]

/-- Strict monotonicity of the odds-to-probability map on `[0, ∞)`. -/
theorem odds_to_prob_strict (x y : ℝ) (hx : 0 ≤ x) (hxy : x < y) :
    x / (1 + x) < y / (1 + y) := by
  have h1 : (0 : ℝ) < 1 + x := by linarith
  have h2 : (0 : ℝ) < 1 + y := by linarith
  rw [div_lt_div_iff₀ h1 h2]
  nlinarith

/-- Counterexample to C1 as stated: on a single satisfied RPT indicator with
an empty theory-score map, the code (which computes
`log(lr + 1e-10)`) and the claim's reference definition (which computes
`log(lr)`) give different credences. -/
theorem C1_counterexample : aggregate [c1Ind] [] ≠ aggregateSpec [c1Ind] [] := by
  have hLcode : ((likelihoodRatio true true : ℚ) : ℝ) = 17 / 3 := by
    norm_num [likelihoodRatio, LIKELIHOOD_SATISFIED]
  have hLspec : ((specLikelihoodRatio true true : ℚ) : ℝ) = 17 / 3 := by
    norm_num [specLikelihoodRatio]
  have hwcode : ((theoryWeight "RPT" : ℚ) : ℝ) = 0.15 := by
    norm_num [theoryWeight]
  have hwspec : ((specTheoryWeight "RPT" : ℚ) : ℝ) = 0.15 := by
    norm_num [specTheoryWeight]
  have hprior : ((PRIOR_CREDENCE : ℚ) : ℝ) / (1 - ((PRIOR_CREDENCE : ℚ) : ℝ))
      = 1 / 19 := by
    norm_num [PRIOR_CREDENCE]
  have hagg : aggregate [c1Ind] []
      = (1 / 19 * Real.exp (0.15 * Real.log (17 / 3 + 1e-10)))
        / (1 + 1 / 19 * Real.exp (0.15 * Real.log (17 / 3 + 1e-10))) := by
    unfold aggregate logLikelihoodRatioSum theoryBonus
    simp only [List.foldl_cons, List.foldl_nil, c1Ind, zero_add]
    rw [hwcode, hLcode, hprior]
    rw [Rat.cast_zero, add_zero]
    apply min_eq_right
    have hlog : Real.log (17 / 3 + 1e-10) ≤ 5 := by
      have h := Real.log_le_sub_one_of_pos (x := 17 / 3 + 1e-10) (by norm_num)
      nlinarith
    have hexp : Real.exp (0.15 * Real.log (17 / 3 + 1e-10)) ≤ Real.exp 1 := by
      apply Real.exp_le_exp.mpr
      have hlb : 0 < (17 : ℝ) / 3 + 1e-10 := by norm_num
      nlinarith [Real.log_nonneg (by norm_num : (1:ℝ) ≤ 17 / 3 + 1e-10)]
    have he1 := Real.exp_one_lt_d9
    have hx : 1 / 19 * Real.exp (0.15 * Real.log (17 / 3 + 1e-10)) ≤ 0.2 := by
      nlinarith [Real.exp_pos (0.15 * Real.log (17 / 3 + 1e-10))]
    have hx0 : 0 ≤ 1 / 19 * Real.exp (0.15 * Real.log (17 / 3 + 1e-10)) :=
      le_of_lt (by positivity)
    calc 1 / 19 * Real.exp (0.15 * Real.log (17 / 3 + 1e-10))
          / (1 + 1 / 19 * Real.exp (0.15 * Real.log (17 / 3 + 1e-10)))
        ≤ 1 / 19 * Real.exp (0.15 * Real.log (17 / 3 + 1e-10)) := by
          apply div_le_self hx0
          linarith
      _ ≤ 0.2 := hx
      _ ≤ 0.99 := by norm_num
  have hspec : aggregateSpec [c1Ind] []
      = (1 / 19 * Real.exp (0.15 * Real.log (17 / 3)))
        / (1 + 1 / 19 * Real.exp (0.15 * Real.log (17 / 3))) := by
    unfold aggregateSpec
    simp only [List.map_cons, List.map_nil, List.sum_cons, List.sum_nil,
      List.filter_nil, c1Ind, add_zero]
    rw [hwspec, hLspec]
    rw [show ((0.05 : ℝ) / (1 - 0.05)) = 1 / 19 by norm_num]
    apply min_eq_left
    have hlog : Real.log (17 / 3) ≤ 5 := by
      have h := Real.log_le_sub_one_of_pos (x := 17 / 3) (by norm_num)
      nlinarith
    have hexp : Real.exp (0.15 * Real.log (17 / 3)) ≤ Real.exp 1 := by
      apply Real.exp_le_exp.mpr
      nlinarith [Real.log_nonneg (by norm_num : (1:ℝ) ≤ 17 / 3)]
    have he1 := Real.exp_one_lt_d9
    have hx : 1 / 19 * Real.exp (0.15 * Real.log (17 / 3)) ≤ 0.2 := by
      nlinarith [Real.exp_pos (0.15 * Real.log (17 / 3))]
    have hx0 : 0 ≤ 1 / 19 * Real.exp (0.15 * Real.log (17 / 3)) :=
      le_of_lt (by positivity)
    calc 1 / 19 * Real.exp (0.15 * Real.log (17 / 3))
          / (1 + 1 / 19 * Real.exp (0.15 * Real.log (17 / 3)))
        ≤ 1 / 19 * Real.exp (0.15 * Real.log (17 / 3)) := by
          apply div_le_self hx0
          linarith
      _ ≤ 0.2 := hx
      _ ≤ 0.99 := by norm_num
  rw [hagg, hspec]
  have hltlog : Real.log (17 / 3) < Real.log (17 / 3 + 1e-10) :=
    Real.log_lt_log (by norm_num) (by norm_num)
  have hltexp : Real.exp (0.15 * Real.log (17 / 3))
      < Real.exp (0.15 * Real.log (17 / 3 + 1e-10)) :=
    Real.exp_lt_exp.mpr (by nlinarith)
  have hltx : 1 / 19 * Real.exp (0.15 * Real.log (17 / 3))
      < 1 / 19 * Real.exp (0.15 * Real.log (17 / 3 + 1e-10)) := by
    nlinarith
  have hx0 : 0 ≤ 1 / 19 * Real.exp (0.15 * Real.log (17 / 3)) :=
    le_of_lt (by positivity)
  exact Ne.symm (ne_of_lt (odds_to_prob_strict _ _ hx0 hltx))

/-- Counterexample to C3 as stated: raising the single raw field
`broadcast_latency_ms` from 50 to 150 (all other fields fixed) strictly
decreases GWT-2's score, from 0.2 to 0 — the `< 100` bonus is lost. -/
theorem C3_counterexample :
    (50 : ℚ) ≤ 150
    ∧ (gwt2 ({ broadcast_latency_ms := some 150 } : Arch) ({} : Behaviors)).score
        < (gwt2 ({ broadcast_latency_ms := some 50 } : Arch) ({} : Behaviors)).score := by
  constructor
  · norm_num
  · norm_num [gwt2, latencyLt100, min_def]
